import Mathlib

/-!
# The apatodon HTTP client of ez_river (`mysql-http/client/client.go`)

A shallow embedding of the client: `Login`, `DoRequest`, `Do`, the four
document operations `Get`, `Update`, `Delete`, `Create`, and the recursive
`retry` helper with its `stop` wrapper.

Modelling conventions.

* Go's `int` and `time.Duration` are 64-bit signed integers; they are `Int`
  here and the one arithmetic operation of the file (`attempts--` in `retry`)
  wraps with `wrapInt`.
* A Go `error` value is `Option GoError` (`none` is `nil`); a pointer
  `*Response` is `Option Response`.
* A run either returns or panics (`Run`); dereferencing a nil pointer panics.
* The standard library and the server are an environment `Env`:
  `json.Marshal`, `http.NewRequest`, `(*http.Client).Do` and `json.Unmarshal`
  are its fields, and an `HTTPResponse` holds what `ioutil.ReadAll` yields.
* `World.trace` is a ghost log: `Login` records its entry, `DoRequest` the
  request it hands to the HTTP client, a document operation what `Do`
  returned to it, and `time.Sleep` the duration slept.
-/

namespace Apatodon

/-! ## Constants -/

def attempts : Int := 3

/-- The constant `time.Second`, in nanoseconds. -/
def Second : Int := 1000000000

def sleep : Int := 1 * Second

def authErr : Int := 16

/-! ## Values -/

/-- A decoded JSON value held in an `interface{}`. Numbers keep their literal. -/
inductive Value where
  | null
  | bool (b : Bool)
  | number (literal : String)
  | string (s : String)
  | array (items : List Value)
  | object (fields : List (String × Value))

/-- The type assertion `v.(string)`: the string when the dynamic type is string. -/
def Value.asString : Value → Option String
  | .string s => some s
  | _ => none

/-- An argument of a formatting call. -/
inductive FmtArg where
  | int (n : Int)
  | str (s : String)
  deriving DecidableEq

/-- The default format `%v` of an argument. -/
def FmtArg.render : FmtArg → String
  | .int n => toString n
  | .str s => s

/-- The verb `%s` applied to an argument. -/
def FmtArg.renderS : FmtArg → String
  | .int n => "%!s(int=" ++ toString n ++ ")"
  | .str s => s

/-- The verbs `%v` and `%s` of `fmt.Sprintf`, over the characters of the format.
Operands beyond the verbs are not rendered; no call of this file has any. -/
def sprintfAux : List Char → List FmtArg → List Char
  | [], _ => []
  | '%' :: 'v' :: rest, a :: args => a.render.data ++ sprintfAux rest args
  | '%' :: 's' :: rest, a :: args => a.renderS.data ++ sprintfAux rest args
  | '%' :: 'v' :: rest, [] => "%!v(MISSING)".data ++ sprintfAux rest []
  | '%' :: 's' :: rest, [] => "%!s(MISSING)".data ++ sprintfAux rest []
  | ch :: rest, args => ch :: sprintfAux rest args

/-- The function `fmt.Sprintf(format, args...)`. -/
def Sprintf (format : String) (args : List FmtArg) : String :=
  String.mk (sprintfAux format.data args)

/-- An error value made by the standard library (`encoding/json`, `net/http`, `io`). -/
structure LibError where
  text : String
  deriving DecidableEq

/-- A non-nil Go `error`: made by `errors.New`, by `fmt.Errorf`, by the
standard library, or the wrapper struct `stop{error}`, whose embedded error
may itself be nil. -/
inductive GoError where
  | new (text : String)
  | errorf (format : String) (args : List FmtArg)
  | lib (e : LibError)
  | stop (inner : Option GoError)

/-- The type assertion `err.(stop)`: the embedded error when the dynamic type is `stop`. -/
def GoError.asStop : GoError → Option (Option GoError)
  | .stop inner => some inner
  | _ => none

/-- The text of `err.Error()`; a `stop` forwards to its embedded error. -/
def GoError.text : GoError → String
  | .new t => t
  | .errorf format args => Sprintf format args
  | .lib e => e.text
  | .stop (some e) => e.text
  | .stop none => ""

/-- The package variable `ErrNoAuth = errors.New("no auth")`. -/
def ErrNoAuth : GoError := .new "no auth"

/-- The `*http.Client` held in `Client.c`, reduced to its one setting. -/
structure Transport where
  InsecureSkipVerify : Bool := false

structure Client where
  Protocol : String
  Addr : String
  User : String
  Password : String
  LoginURL : String
  Token : String
  c : Transport

structure Response where
  Code : Int := 0
  Message : String := ""
  Data : Value := .null

/-- A `map[string]interface{}` argument; `none` is the nil map. -/
abbrev Body := Option (List (String × Value))

/-- An `*http.Request` as built by `DoRequest`. -/
structure Request where
  Method : String
  URL : String
  Header : List (String × String)
  Body : String

/-- An `*http.Response`, reduced to what `ioutil.ReadAll(resp.Body)` yields. -/
structure HTTPResponse where
  Body : Except LibError String

/-- A run of Go code: it returns a value or panics. -/
inductive Run (α : Type) where
  | ret (a : α)
  | panic (msg : String)

def nilDeref : String := "invalid memory address or nil pointer dereference"

/-- One entry of the ghost log. -/
inductive Event where
  | login
  | send (req : Request)
  | document (r : Option Response) (err : Option GoError)
  | sleep (d : Int)

/-- The standard library and the remote server. -/
structure Env (σ : Type) where
  /-- The call `json.Marshal(body)`. -/
  marshal : Body → Except LibError String
  /-- The call `http.NewRequest(method, url, _)`: `some e` when it returns `(nil, e)`. -/
  newRequest : String → String → Option LibError
  /-- The call `c.c.Do(req)`: the exchange with the server, which has a state of its own. -/
  send : σ → Request → Except LibError HTTPResponse × σ
  /-- The call `json.Unmarshal(data, &ret)` with `ret = new(Response)`: the pointer `ret`
  afterwards (nil when the document is `null`) and the error. -/
  unmarshal : String → Option Response × Option LibError

/-- The client, the state of the server, and the ghost log. -/
structure World (σ : Type) where
  client : Client
  net : σ
  trace : List Event

def World.log {σ : Type} (w : World σ) (e : Event) : World σ :=
  { w with trace := w.trace ++ [e] }

/-- A world whose log is empty. -/
def World.start {σ : Type} (c : Client) (net : σ) : World σ :=
  { client := c, net := net, trace := [] }

/-! ## retry -/

/-- The wrap-around of 64-bit signed arithmetic (two-complement). -/
def wrapInt (x : Int) : Int := (x + 9223372036854775808) % 18446744073709551616 - 9223372036854775808

/-- The number that decreases along the recursion of `retry`. -/
def retryMeasure (n : Int) : Nat :=
  if 0 < n ∧ n < 9223372036854775808 then n.toNat else 9223372036854775808

/-- The function `retry(attempts, sleep, f)`. `timeSleep` is `time.Sleep` and
`f` a closure over the state `τ`. -/
def retry {τ : Type} (timeSleep : Int → τ → τ) (attempts : Int) (sleep : Int)
    (f : τ → Run (Option GoError) × τ) (t : τ) : Run (Option GoError) × τ :=
  match f t with
  | (.panic m, t1) => (.panic m, t1)
  | (.ret none, t1) => (.ret none, t1)
  | (.ret (some err), t1) =>
    match err.asStop with
    | some inner => (.ret inner, t1)
    | none =>
      if h : 0 < wrapInt (attempts - 1) then
        -- attempts--; attempts > 0
        retry timeSleep (wrapInt (attempts - 1)) sleep f (timeSleep sleep t1)
      else
        (.ret (some err), t1)
termination_by retryMeasure attempts
decreasing_by
  have h0 : 0 < wrapInt (attempts - 1) := h
  simp only [retryMeasure]
  simp only [wrapInt] at h0 ⊢
  split_ifs <;> omega

/-! ## The client -/

/-- The method `(c *Client) DoRequest(method, url, body)`. The two headers are
added before the error of `http.NewRequest` is looked at, so a nil request is
dereferenced and the `errors.Trace(err)` return is never reached. -/
def DoRequest {σ : Type} (env : Env σ) (method url : String) (body : String) (w : World σ) :
    Run (Option HTTPResponse × Option GoError) × World σ :=
  match env.newRequest method url with
  | some _ => (.panic nilDeref, w)
  | none =>
    let req : Request :=
      { Method := method, URL := url,
        Header := [("Content-Type", "application/json"),
                   ("Authorization", "JWT " ++ w.client.Token)],
        Body := body }
    match env.send w.net req with
    | (.error err, net1) =>
      (.ret (none, some (.lib err)), { w with net := net1, trace := w.trace ++ [.send req] })
    | (.ok resp, net1) =>
      (.ret (some resp, none), { w with net := net1, trace := w.trace ++ [.send req] })

/-- The method `(c *Client) Do(method, url, body)`. -/
def Do {σ : Type} (env : Env σ) (method url : String) (body : Body) (w : World σ) :
    Run (Option Response × Option GoError) × World σ :=
  match env.marshal body with
  | .error err =>
    (.ret (none, some (.lib err)), w)
  | .ok bodyData =>
    let buf := if body.isNone then "" else bodyData
    match DoRequest env method url buf w with
    | (.panic m, w1) => (.panic m, w1)
    | (.ret (_, some err), w1) =>
      (.ret (none, some err), w1)
    | (.ret (none, none), w1) => (.panic nilDeref, w1)
    | (.ret (some resp, none), w1) =>
      match resp.Body with
      | .error err =>
        (.ret (none, some (.lib err)), w1)
      | .ok data =>
        match env.unmarshal data with
        | (ret, some err) =>
          (.ret (ret, some (.lib err)), w1)
        | (ret, none) => (.ret (ret, none), w1)

/-- The method `(c *Client) Login()`. -/
def Login {σ : Type} (env : Env σ) (w : World σ) :
    Run (Option Response × Option GoError) × World σ :=
  let w := w.log .login
  let reqURL := Sprintf "%s://%s/%s" [.str w.client.Protocol, .str w.client.Addr, .str w.client.LoginURL]
  let data : Body :=
    some [("username", .string w.client.User), ("password", .string w.client.Password)]
  match Do env "post" reqURL data w with
  | (.panic m, w1) => (.panic m, w1)
  | (.ret (r, some err), w1) => (.ret (r, some err), w1)
  | (.ret (none, none), w1) => (.panic nilDeref, w1)
  | (.ret (some r, none), w1) =>
    match r.Data.asString with
    | none => (.ret (some r, some (.errorf "数据格式错误" [])), w1)
    | some token => (.ret (some r, none), { w1 with client := { w1.client with Token := token } })

/-- The call `time.Sleep(d)` in a document operation, whose state is the world
and the captured variable `r`. -/
def timeSleep {σ : Type} (d : Int) (t : World σ × Option Response) : World σ × Option Response :=
  (t.1.log (.sleep d), t.2)

/-- The method `(c *Client) Get(index, docType, id)`. -/
def Get {σ : Type} (env : Env σ) (index docType id : String) (w : World σ) :
    Run (Option GoError) × World σ :=
  let reqURL := Sprintf "%s://%s/%s/%s/%s"
    [.str w.client.Protocol, .str w.client.Addr, .str index, .str docType, .str id]
  let r : Option Response := some {}
  match retry timeSleep attempts sleep (fun t =>
      match Do env "GET" reqURL none t.1 with
      | (.panic m, w1) => (.panic m, (w1, t.2))
      | (.ret (r, some err), w1) =>
        (.ret (some (.stop (some err))), (w1.log (.document r (some err)), r))
      | (.ret (none, none), w1) => (.panic nilDeref, (w1.log (.document none none), none))
      | (.ret (some r, none), w1) =>
        let w1 := w1.log (.document (some r) none)
        if r.Code ≠ authErr then (.ret none, (w1, some r))
        else
          match Login env w1 with
          | (.panic m, w2) => (.panic m, (w2, some r))
          | (.ret (_, some err), w2) => (.ret (some (.stop (some err))), (w2, some r))
          | (.ret (_, none), w2) => (.ret (some ErrNoAuth), (w2, some r))) (w, r) with
  | (.panic m, t) => (.panic m, t.1)
  | (.ret (some err), t) => (.ret (some err), t.1)
  | (.ret none, (w1, none)) => (.panic nilDeref, w1)
  | (.ret none, (w1, some r)) =>
    if r.Code ≠ 0 then
      (.ret (some (.errorf "Put failed, code: %v, message: %v" [.int r.Code, .str r.Message])), w1)
    else (.ret none, w1)

/-- The method `(c *Client) Update(index, docType, id, data)`. -/
def Update {σ : Type} (env : Env σ) (index docType id : String) (data : Body) (w : World σ) :
    Run (Option GoError) × World σ :=
  let reqURL := Sprintf "%s://%s/%s/%s/%s"
    [.str w.client.Protocol, .str w.client.Addr, .str index, .str docType, .str id]
  let r : Option Response := some {}
  match retry timeSleep attempts sleep (fun t =>
      match Do env "PUT" reqURL data t.1 with
      | (.panic m, w1) => (.panic m, (w1, t.2))
      | (.ret (r, some err), w1) =>
        (.ret (some (.stop (some err))), (w1.log (.document r (some err)), r))
      | (.ret (none, none), w1) => (.panic nilDeref, (w1.log (.document none none), none))
      | (.ret (some r, none), w1) =>
        let w1 := w1.log (.document (some r) none)
        if r.Code ≠ authErr then (.ret none, (w1, some r))
        else
          match Login env w1 with
          | (.panic m, w2) => (.panic m, (w2, some r))
          | (.ret (_, some err), w2) => (.ret (some (.stop (some err))), (w2, some r))
          | (.ret (_, none), w2) => (.ret (some ErrNoAuth), (w2, some r))) (w, r) with
  | (.panic m, t) => (.panic m, t.1)
  | (.ret (some err), t) => (.ret (some err), t.1)
  | (.ret none, (w1, none)) => (.panic nilDeref, w1)
  | (.ret none, (w1, some r)) =>
    if r.Code ≠ 0 then
      (.ret (some (.errorf "Put failed, code: %v, message: %v" [.int r.Code, .str r.Message])), w1)
    else (.ret none, w1)

/-- The method `(c *Client) Delete(index, docType, id)`. -/
def Delete {σ : Type} (env : Env σ) (index docType id : String) (w : World σ) :
    Run (Option GoError) × World σ :=
  let reqURL := Sprintf "%s://%s/%s/%s/%s"
    [.str w.client.Protocol, .str w.client.Addr, .str index, .str docType, .str id]
  let r : Option Response := some {}
  match retry timeSleep attempts sleep (fun t =>
      match Do env "DELETE" reqURL none t.1 with
      | (.panic m, w1) => (.panic m, (w1, t.2))
      | (.ret (r, some err), w1) =>
        (.ret (some (.stop (some err))), (w1.log (.document r (some err)), r))
      | (.ret (none, none), w1) => (.panic nilDeref, (w1.log (.document none none), none))
      | (.ret (some r, none), w1) =>
        let w1 := w1.log (.document (some r) none)
        if r.Code ≠ authErr then (.ret none, (w1, some r))
        else
          match Login env w1 with
          | (.panic m, w2) => (.panic m, (w2, some r))
          | (.ret (_, some err), w2) => (.ret (some (.stop (some err))), (w2, some r))
          | (.ret (_, none), w2) => (.ret (some ErrNoAuth), (w2, some r))) (w, r) with
  | (.panic m, t) => (.panic m, t.1)
  | (.ret (some err), t) => (.ret (some err), t.1)
  | (.ret none, (w1, none)) => (.panic nilDeref, w1)
  | (.ret none, (w1, some r)) =>
    if r.Code ≠ 0 then
      (.ret (some (.errorf "Delete failed, code: %v, message: %v" [.int r.Code, .str r.Message])), w1)
    else (.ret none, w1)

/-- The method `(c *Client) Create(index, docType, data)`. -/
def Create {σ : Type} (env : Env σ) (index docType : String) (data : Body) (w : World σ) :
    Run (Option GoError) × World σ :=
  let reqURL := Sprintf "%s://%s/%s/%s"
    [.str w.client.Protocol, .str w.client.Addr, .str index, .str docType]
  let r : Option Response := some {}
  match retry timeSleep attempts sleep (fun t =>
      match Do env "POST" reqURL data t.1 with
      | (.panic m, w1) => (.panic m, (w1, t.2))
      | (.ret (r, some err), w1) =>
        (.ret (some (.stop (some err))), (w1.log (.document r (some err)), r))
      | (.ret (none, none), w1) => (.panic nilDeref, (w1.log (.document none none), none))
      | (.ret (some r, none), w1) =>
        let w1 := w1.log (.document (some r) none)
        if r.Code ≠ authErr then (.ret none, (w1, some r))
        else
          match Login env w1 with
          | (.panic m, w2) => (.panic m, (w2, some r))
          | (.ret (_, some err), w2) => (.ret (some (.stop (some err))), (w2, some r))
          | (.ret (_, none), w2) => (.ret (some ErrNoAuth), (w2, some r))) (w, r) with
  | (.panic m, t) => (.panic m, t.1)
  | (.ret (some err), t) => (.ret (some err), t.1)
  | (.ret none, (w1, none)) => (.panic nilDeref, w1)
  | (.ret none, (w1, some r)) =>
    if r.Code ≠ 0 then
      (.ret (some (.errorf "Post failed, code: %v, message: %v" [.int r.Code, .str r.Message])), w1)
    else (.ret none, w1)

/-- The closure that the four document operations hand to `retry`; they differ
in the method, the URL and the body only. -/
def attempt {σ : Type} (env : Env σ) (method reqURL : String) (body : Body)
    (t : World σ × Option Response) : Run (Option GoError) × (World σ × Option Response) :=
  match Do env method reqURL body t.1 with
  | (.panic m, w1) => (.panic m, (w1, t.2))
  | (.ret (r, some err), w1) =>
    (.ret (some (.stop (some err))), (w1.log (.document r (some err)), r))
  | (.ret (none, none), w1) => (.panic nilDeref, (w1.log (.document none none), none))
  | (.ret (some r, none), w1) =>
    let w1 := w1.log (.document (some r) none)
    if r.Code ≠ authErr then (.ret none, (w1, some r))
    else
      match Login env w1 with
      | (.panic m, w2) => (.panic m, (w2, some r))
      | (.ret (_, some err), w2) => (.ret (some (.stop (some err))), (w2, some r))
      | (.ret (_, none), w2) => (.ret (some ErrNoAuth), (w2, some r))

/-- The common shape of the four document operations. -/
def operation {σ : Type} (env : Env σ) (method reqURL : String) (body : Body) (format : String)
    (w : World σ) : Run (Option GoError) × World σ :=
  match retry timeSleep attempts sleep (attempt env method reqURL body) (w, some {}) with
  | (.panic m, t) => (.panic m, t.1)
  | (.ret (some err), t) => (.ret (some err), t.1)
  | (.ret none, (w1, none)) => (.panic nilDeref, w1)
  | (.ret none, (w1, some r)) =>
    if r.Code ≠ 0 then (.ret (some (.errorf format [.int r.Code, .str r.Message])), w1)
    else (.ret none, w1)

/-- The URL of a document: `fmt.Sprintf("%s://%s/%s/%s/%s", ...)`. -/
def docURL (c : Client) (index docType id : String) : String :=
  Sprintf "%s://%s/%s/%s/%s" [.str c.Protocol, .str c.Addr, .str index, .str docType, .str id]

/-- The URL of a document type: `fmt.Sprintf("%s://%s/%s/%s", ...)`. -/
def typeURL (c : Client) (index docType : String) : String :=
  Sprintf "%s://%s/%s/%s" [.str c.Protocol, .str c.Addr, .str index, .str docType]

/-! ## Reading the log -/

/-- What `Do` returned to the document operation, exchange by exchange. -/
def documents (tr : List Event) : List (Option Response × Option GoError) :=
  tr.filterMap fun
    | .document r err => some (r, err)
    | _ => none

/-- The number of calls of `Login`. -/
def logins (tr : List Event) : Nat :=
  (tr.filterMap fun
    | .login => some ()
    | _ => none).length

/-- The delays slept. -/
def sleeps (tr : List Event) : List Int :=
  tr.filterMap fun
    | .sleep d => some d
    | _ => none

/-- The requests handed to the HTTP client. -/
def sends (tr : List Event) : List Request :=
  tr.filterMap fun
    | .send req => some req
    | _ => none

/-- The two headers that `DoRequest` adds. -/
def headers (token : String) : List (String × String) :=
  [("Content-Type", "application/json"), ("Authorization", "JWT " ++ token)]

/-- The URL of the login endpoint: `fmt.Sprintf("%s://%s/%s", ...)`. -/
def loginURL (c : Client) : String :=
  Sprintf "%s://%s/%s" [.str c.Protocol, .str c.Addr, .str c.LoginURL]

/-- The credentials that `Login` posts. -/
def credentials (c : Client) : Body :=
  some [("username", .string c.User), ("password", .string c.Password)]

/-- The run `out`, started in the world `w`, returned `res` after the document
exchanges `docs`, `k` calls of `Login` and the delays `delays`. -/
def Performed {σ : Type} (out : Run (Option GoError) × World σ) (w : World σ)
    (res : Option GoError) (docs : List (Option Response × Option GoError)) (k : Nat)
    (delays : List Int) : Prop :=
  out.1 = .ret res
    ∧ documents out.2.trace = documents w.trace ++ docs
    ∧ logins out.2.trace = logins w.trace + k
    ∧ sleeps out.2.trace = sleeps w.trace ++ delays

/-- The text `s` contains the text `t`. -/
def containsText (s t : String) : Prop := t.data <:+: s.data

/-! ## The properties of a document operation

Each property is stated for an operation `op` whose exchanges are the calls
`Do env m u b`; the theorems instantiate it at `Get`, `Update`, `Delete` and
`Create`. An attempt that meets the status code 16 and logs in again
successfully is followed by `time.Sleep(sleep)` and the next attempt. -/

/-- An error returned by `Do` at the first, second or third attempt ends the
operation at that attempt: the operation returns that very error and its
final world is the one `Do` left. -/
def StopsAtExchangeError {σ : Type} (env : Env σ) (m u : String) (b : Body)
    (op : World σ → Run (Option GoError) × World σ) (w : World σ) : Prop :=
  (∀ (r : Option Response) (e : GoError) (w1 : World σ),
      Do env m u b w = (.ret (r, some e), w1) →
      op w = (.ret (some e), w1.log (.document r (some e)))
        ∧ Performed (op w) w (some e) [(r, some e)] 0 [])
  ∧ (∀ (r1 : Response) (lr r : Option Response) (e : GoError) (w1 w2 w3 : World σ),
      Do env m u b w = (.ret (some r1, none), w1) → r1.Code = authErr →
      Login env (w1.log (.document (some r1) none)) = (.ret (lr, none), w2) →
      Do env m u b (w2.log (.sleep sleep)) = (.ret (r, some e), w3) →
      op w = (.ret (some e), w3.log (.document r (some e)))
        ∧ Performed (op w) w (some e) [(some r1, none), (r, some e)] 1 [sleep])
  ∧ (∀ (r1 r2 : Response) (lr1 lr2 r : Option Response) (e : GoError)
      (w1 w2 w3 w4 w5 : World σ),
      Do env m u b w = (.ret (some r1, none), w1) → r1.Code = authErr →
      Login env (w1.log (.document (some r1) none)) = (.ret (lr1, none), w2) →
      Do env m u b (w2.log (.sleep sleep)) = (.ret (some r2, none), w3) → r2.Code = authErr →
      Login env (w3.log (.document (some r2) none)) = (.ret (lr2, none), w4) →
      Do env m u b (w4.log (.sleep sleep)) = (.ret (r, some e), w5) →
      op w = (.ret (some e), w5.log (.document r (some e)))
        ∧ Performed (op w) w (some e)
            [(some r1, none), (some r2, none), (r, some e)] 2 [sleep, sleep])

/-- A first envelope whose code is neither 0 nor 16 ends the operation after
that one exchange, with an error whose text is
`label failed, code: <code>, message: <message>`. -/
def ReportsBusinessError {σ : Type} (env : Env σ) (m u : String) (b : Body) (label : String)
    (op : World σ → Run (Option GoError) × World σ) (w : World σ) : Prop :=
  ∀ (r : Response) (w1 : World σ),
    Do env m u b w = (.ret (some r, none), w1) → r.Code ≠ 0 → r.Code ≠ 16 →
    ∃ e : GoError,
      Performed (op w) w (some e) [(some r, none)] 0 []
        ∧ e.text = label ++ " failed, code: " ++ toString r.Code ++ ", message: " ++ r.Message
        ∧ containsText e.text (toString r.Code)
        ∧ containsText e.text r.Message

/-- Code 16, a re-login that yields the token `t`, then code 0: the operation
returns nil after two document exchanges, one login and one delay, and the
second document request carries the new token. -/
def RefreshesToken {σ : Type} (env : Env σ) (m u : String) (b : Body)
    (op : World σ → Run (Option GoError) × World σ) (w : World σ) : Prop :=
  ∀ (r1 lr r2 : Response) (t : String) (w1 w2 w3 : World σ),
    Do env m u b w = (.ret (some r1, none), w1) → r1.Code = 16 →
    Login env (w1.log (.document (some r1) none)) = (.ret (some lr, none), w2) →
    lr.Data = .string t →
    Do env m u b (w2.log (.sleep sleep)) = (.ret (some r2, none), w3) → r2.Code = 0 →
    Performed (op w) w none [(some r1, none), (some r2, none)] 1 [sleep]
      ∧ ∃ b1 b2 b3 : String,
          sends (op w).2.trace
            = sends w.trace ++
              [⟨m, u, headers w.client.Token, b1⟩,
               ⟨"post", loginURL w.client, headers w.client.Token, b2⟩,
               ⟨m, u, [("Content-Type", "application/json"), ("Authorization", "JWT " ++ t)], b3⟩]

/-- Code 16 at every attempt and a successful re-login after each: the
operation returns `ErrNoAuth` after three document exchanges, three logins
and two delays of one second. -/
def ExhaustsAttempts {σ : Type} (env : Env σ) (m u : String) (b : Body)
    (op : World σ → Run (Option GoError) × World σ) (w : World σ) : Prop :=
  ∀ (r1 r2 r3 : Response) (lr1 lr2 lr3 : Option Response) (w1 w2 w3 w4 w5 w6 : World σ),
    Do env m u b w = (.ret (some r1, none), w1) → r1.Code = 16 →
    Login env (w1.log (.document (some r1) none)) = (.ret (lr1, none), w2) →
    Do env m u b (w2.log (.sleep sleep)) = (.ret (some r2, none), w3) → r2.Code = 16 →
    Login env (w3.log (.document (some r2) none)) = (.ret (lr2, none), w4) →
    Do env m u b (w4.log (.sleep sleep)) = (.ret (some r3, none), w5) → r3.Code = 16 →
    Login env (w5.log (.document (some r3) none)) = (.ret (lr3, none), w6) →
    Performed (op w) w (some ErrNoAuth)
        [(some r1, none), (some r2, none), (some r3, none)] 3
        [1000000000, 1000000000]

/-- The last document exchange in the log decoded to an envelope with code 0. -/
def settledWithZero (tr : List Event) : Prop :=
  ∃ r : Response, (documents tr).getLast? = some (some r, none) ∧ r.Code = 0

/-- The run `out` of a document operation whose business error has the format
`format`: it returns nil exactly when its last document exchange decoded to
an envelope with code 0, and it never returns the business error formatted
with the code 16. -/
def SixteenIsNotTerminal {σ : Type} (format : String) (out : Run (Option GoError) × World σ) :
    Prop :=
  (out.1 = .ret none ↔ settledWithZero out.2.trace)
    ∧ ∀ msg : String, out.1 ≠ .ret (some (.errorf format [.int 16, .str msg]))

/-! ## The retry executor of the specification -/

/-- The bounded loop as the specification words it (section 4.3), over
unbounded integers: invoke the operation; nil stops with success; a fatal
wrapper stops with the wrapped error; otherwise decrement the attempt budget
and, if it is still positive, wait and invoke again, else return the last
error as it is. -/
def retryLoop {τ : Type} (wait : Int → τ → τ) (maxAttempts : Int) (delay : Int)
    (operation : τ → Option GoError × τ) (t : τ) : Option GoError × τ :=
  match operation t with
  | (none, t1) => (none, t1)
  | (some err, t1) =>
    match err.asStop with
    | some inner => (inner, t1)
    | none =>
      if h : 0 < maxAttempts - 1 then
        retryLoop wait (maxAttempts - 1) delay operation (wait delay t1)
      else
        (some err, t1)
termination_by maxAttempts.toNat
decreasing_by omega

/-- A closure that always returns, as `retry` sees it. -/
def returning {τ : Type} (g : τ → Option GoError × τ) (t : τ) : Run (Option GoError) × τ :=
  (.ret (g t).1, (g t).2)

/-- The closure `g` with a record of what each invocation returned. -/
def recorded {τ : Type} (g : τ → Option GoError × τ)
    (s : τ × List (Option GoError) × Nat) : Option GoError × (τ × List (Option GoError) × Nat) :=
  ((g s.1).1, ((g s.1).2, s.2.1 ++ [(g s.1).1], s.2.2))

/-- The sleep `wait` with a count of the delays slept. -/
def countedSleep {τ : Type} (wait : Int → τ → τ) (d : Int)
    (s : τ × List (Option GoError) × Nat) : τ × List (Option GoError) × Nat :=
  (wait d s.1, s.2.1, s.2.2 + 1)

/-- How the value returned by `retry` follows from what the invocations
returned: nil after a nil, the wrapped error after a `stop`, and the last
error itself once `max n 1` invocations have been made. -/
def lastDecides (n : Int) (rs : List (Option GoError)) (res : Run (Option GoError)) : Prop :=
  match rs.getLast? with
  | none => False
  | some none => res = .ret none
  | some (some err) =>
    match err.asStop with
    | some inner => res = .ret inner
    | none => (rs.length : Int) = max n 1 ∧ res = .ret (some err)

/-- An invocation after which `retry` goes on: a non-nil error that is not a `stop`. -/
def retryable (e : Option GoError) : Prop :=
  ∃ err, e = some err ∧ err.asStop = none

/-- A closure over a call counter that fails once with a retryable error and
then succeeds. -/
def failsOnce (s : Nat × Nat) : Option GoError × (Nat × Nat) :=
  (if s.1 = 0 then some ErrNoAuth else none, (s.1 + 1, s.2))

/-- A sleep that counts the delays in the second component. -/
def tick (_ : Int) (s : Nat × Nat) : Nat × Nat := (s.1, s.2 + 1)

/-! ## A scripted environment, for concrete runs -/

def isHexDigit (ch : Char) : Bool :=
  ('0' ≤ ch ∧ ch ≤ '9') || ('a' ≤ ch ∧ ch ≤ 'f') || ('A' ≤ ch ∧ ch ≤ 'F')

/-- The check of `net/url` that makes `http.NewRequest` fail: a `%` that is
not followed by two hexadecimal digits. -/
def badEscape : List Char → Bool
  | [] => false
  | '%' :: a :: b :: rest => if isHexDigit a && isHexDigit b then badEscape rest else true
  | '%' :: _ => true
  | _ :: rest => badEscape rest

/-- The decoding of the response bodies used in the concrete runs. -/
def decodeEnvelope (data : String) : Option Response × Option LibError :=
  if data = "\x7b\"Code\":0\x7d" then (some { Code := 0 }, none)
  else if data = "\x7b\"Code\":16\x7d" then (some { Code := 16 }, none)
  else if data = "\x7b\"Code\":0,\"Data\":\"tok2\"\x7d" then
    (some { Code := 0, Data := .string "tok2" }, none)
  else if data = "\x7b\"Code\":500,\"Message\":\"disk full\"\x7d" then
    (some { Code := 500, Message := "disk full" }, none)
  else if data = "\x7b\"Code\":1,\"Message\":\"bad credentials\",\"Data\":\"guest\"\x7d" then
    (some { Code := 1, Message := "bad credentials", Data := .string "guest" }, none)
  else if data = "\x7b\"Code\":1,\"Message\":\"bad credentials\"\x7d" then
    (some { Code := 1, Message := "bad credentials" }, none)
  else if data = "null" then (none, none)
  else (some {}, some ⟨"invalid character"⟩)

/-- A server that answers its k-th request with the k-th entry of a script,
and refuses the connection once the script is over. -/
def scripted (script : List (Except LibError HTTPResponse)) : Env Nat where
  marshal := fun b => .ok (if b.isNone then "null" else "\x7b\"name\":\"a\"\x7d")
  newRequest := fun _ url =>
    if badEscape url.data then some ⟨"invalid URL escape"⟩ else none
  send := fun k _ => (script.getD k (.error ⟨"connection refused"⟩), k + 1)
  unmarshal := decodeEnvelope

/-- A response whose body is read in full. -/
def reply (data : String) : Except LibError HTTPResponse := .ok ⟨.ok data⟩

def demoClient : Client :=
  { Protocol := "http", Addr := "h", User := "u", Password := "p", LoginURL := "login",
    Token := "tok1", c := {} }

/-- The fields of the document sent in the concrete runs. -/
def demoData : Body := some [("name", .string "a")]

/-! ## Basic facts -/

theorem Get_eq_operation {σ : Type} (env : Env σ) (index docType id : String) (w : World σ) :
    Get env index docType id w
      = operation env "GET" (docURL w.client index docType id) none
          "Put failed, code: %v, message: %v" w := rfl

theorem Update_eq_operation {σ : Type} (env : Env σ) (index docType id : String) (data : Body)
    (w : World σ) :
    Update env index docType id data w
      = operation env "PUT" (docURL w.client index docType id) data
          "Put failed, code: %v, message: %v" w := rfl

theorem Delete_eq_operation {σ : Type} (env : Env σ) (index docType id : String) (w : World σ) :
    Delete env index docType id w
      = operation env "DELETE" (docURL w.client index docType id) none
          "Delete failed, code: %v, message: %v" w := rfl

theorem Create_eq_operation {σ : Type} (env : Env σ) (index docType : String) (data : Body)
    (w : World σ) :
    Create env index docType data w
      = operation env "POST" (typeURL w.client index docType) data
          "Post failed, code: %v, message: %v" w := rfl

theorem Sprintf_three (a b c : String) :
    Sprintf "%s://%s/%s" [.str a, .str b, .str c] = a ++ "://" ++ b ++ "/" ++ c := by
  apply String.ext
  simp [Sprintf, sprintfAux, FmtArg.renderS]

theorem loginURL_eq (c : Client) :
    loginURL c = c.Protocol ++ "://" ++ c.Addr ++ "/" ++ c.LoginURL :=
  Sprintf_three _ _ _

theorem docURL_eq (c : Client) (index docType id : String) :
    docURL c index docType id
      = c.Protocol ++ "://" ++ c.Addr ++ "/" ++ index ++ "/" ++ docType ++ "/" ++ id := by
  apply String.ext
  simp [docURL, Sprintf, sprintfAux, FmtArg.renderS]

theorem typeURL_eq (c : Client) (index docType : String) :
    typeURL c index docType = c.Protocol ++ "://" ++ c.Addr ++ "/" ++ index ++ "/" ++ docType := by
  apply String.ext
  simp [typeURL, Sprintf, sprintfAux, FmtArg.renderS]

/-! ## Facts about retry -/

theorem retry_panic {τ : Type} (wait : Int → τ → τ) (n d : Int)
    (f : τ → Run (Option GoError) × τ) (t t1 : τ) (m : String) (h : f t = (.panic m, t1)) :
    retry wait n d f t = (.panic m, t1) := by
  rw [retry, h]

theorem retry_nil {τ : Type} (wait : Int → τ → τ) (n d : Int)
    (f : τ → Run (Option GoError) × τ) (t t1 : τ) (h : f t = (.ret none, t1)) :
    retry wait n d f t = (.ret none, t1) := by
  rw [retry, h]

theorem retry_stop {τ : Type} (wait : Int → τ → τ) (n d : Int)
    (f : τ → Run (Option GoError) × τ) (t t1 : τ) (err : GoError) (inner : Option GoError)
    (h : f t = (.ret (some err), t1)) (hs : err.asStop = some inner) :
    retry wait n d f t = (.ret inner, t1) := by
  rw [retry, h]
  simp only [hs]

theorem retry_again {τ : Type} (wait : Int → τ → τ) (n d : Int)
    (f : τ → Run (Option GoError) × τ) (t t1 : τ) (err : GoError)
    (h : f t = (.ret (some err), t1)) (hs : err.asStop = none) (hn : 0 < wrapInt (n - 1)) :
    retry wait n d f t = retry wait (wrapInt (n - 1)) d f (wait d t1) := by
  rw [retry, h]
  simp only [hs, hn, dite_true]

theorem retry_last {τ : Type} (wait : Int → τ → τ) (n d : Int)
    (f : τ → Run (Option GoError) × τ) (t t1 : τ) (err : GoError)
    (h : f t = (.ret (some err), t1)) (hs : err.asStop = none) (hn : ¬ 0 < wrapInt (n - 1)) :
    retry wait n d f t = (.ret (some err), t1) := by
  rw [retry, h]
  simp only [hs, hn, dite_false]

/-- C9, as stated, fails at the least 64-bit integer: the decrement wraps to
the greatest one, so a closure that fails once is invoked a second time. -/
theorem retry_min_int_invokes_twice :
    retry tick (-9223372036854775808) sleep (returning failsOnce) (0, 0) = (.ret none, (2, 1))
      ∧ retryLoop tick (-9223372036854775808) sleep failsOnce (0, 0) = (some ErrNoAuth, (1, 0))
      ∧ ¬ ((2 : Int) ≤ max (-9223372036854775808) 1) := by
  refine ⟨?_, ?_, by decide⟩
  · rw [retry_again tick _ _ _ (0, 0) (1, 0) ErrNoAuth rfl rfl (by decide)]
    exact retry_nil _ _ _ _ _ _ rfl
  · rw [retryLoop]
    simp [failsOnce, ErrNoAuth, GoError.asStop]

theorem wrapInt_of_range (x : Int) (hlo : -9223372036854775808 ≤ x) (hhi : x < 9223372036854775808) :
    wrapInt x = x := by
  unfold wrapInt
  omega

theorem lastDecides_cons (n : Int) (hn : 2 ≤ n) (e : Option GoError) (rs : List (Option GoError))
    (res : Run (Option GoError)) (hrs : rs ≠ []) (h : lastDecides (n - 1) rs res) :
    lastDecides n (e :: rs) res := by
  unfold lastDecides at h ⊢
  obtain ⟨a, as, rfl⟩ := List.exists_cons_of_ne_nil hrs
  rw [List.getLast?_cons_cons]
  have e1 : max (n - 1) 1 = n - 1 := max_eq_left (by omega)
  have e2 : max n 1 = n := max_eq_left (by omega)
  rw [e1] at h
  rw [e2]
  generalize (a :: as).getLast? = x at h ⊢
  match x with
  | none => exact h.elim
  | some none => exact h
  | some (some err) =>
    simp only at h ⊢
    cases hs : err.asStop with
    | some inner => simp only [hs] at h ⊢; exact h
    | none =>
      simp only [hs] at h ⊢
      refine ⟨?_, h.2⟩
      have := h.1
      simp only [List.length_cons] at this ⊢
      push_cast at this ⊢
      omega

theorem retry_recorded {τ : Type} (wait : Int → τ → τ) (d : Int) (g : τ → Option GoError × τ)
    (k : Nat) : ∀ (n : Int), -9223372036854775808 < n → n < 9223372036854775808 →
      (n - 1).toNat = k → ∀ (t : τ) (pre : List (Option GoError)) (z : Nat),
      (retry (countedSleep wait) n d (returning (recorded g)) (t, pre, z)).1
          = .ret (retryLoop wait n d g t).1
        ∧ (retry (countedSleep wait) n d (returning (recorded g)) (t, pre, z)).2.1
          = (retryLoop wait n d g t).2
        ∧ (retry wait n d (returning g) t)
          = (.ret (retryLoop wait n d g t).1, (retryLoop wait n d g t).2)
        ∧ ∃ rs : List (Option GoError), rs ≠ []
          ∧ (retry (countedSleep wait) n d (returning (recorded g)) (t, pre, z)).2.2.1 = pre ++ rs
          ∧ (retry (countedSleep wait) n d (returning (recorded g)) (t, pre, z)).2.2.2 + 1
              = z + rs.length
          ∧ (rs.length : Int) ≤ max n 1
          ∧ (∀ e ∈ rs.dropLast, retryable e)
          ∧ lastDecides n rs (retry wait n d (returning g) t).1 := by
  induction k with
  | zero =>
    intro n hlo hhi hk t pre z
    have hn1 : ¬ 0 < wrapInt (n - 1) := by
      rw [wrapInt_of_range _ (by omega) (by omega)]; omega
    have hn2 : ¬ 0 < n - 1 := by omega
    rcases hg : g t with ⟨e, t1⟩
    have hr : returning (recorded g) (t, pre, z) = (.ret e, (t1, pre ++ [e], z)) := by
      simp [returning, recorded, hg]
    have hr0 : returning g t = (.ret e, t1) := by simp [returning, hg]
    cases e with
    | none =>
      rw [retry_nil _ _ _ _ _ _ hr, retry_nil _ _ _ _ _ _ hr0, retryLoop, hg]
      exact ⟨rfl, rfl, rfl, [none], by simp, rfl, by simp, by simp, by simp, by simp [lastDecides]⟩
    | some err =>
      cases hs : err.asStop with
      | some inner =>
        rw [retry_stop _ _ _ _ _ _ _ _ hr hs, retry_stop _ _ _ _ _ _ _ _ hr0 hs, retryLoop, hg]
        simp only [hs]
        exact ⟨trivial, trivial, trivial, [some err], by simp, rfl, by simp, by simp, by simp,
          by simp [lastDecides, hs]⟩
      | none =>
        rw [retry_last _ _ _ _ _ _ _ hr hs hn1, retry_last _ _ _ _ _ _ _ hr0 hs hn1, retryLoop, hg]
        simp only [hs, hn2, dite_false]
        refine ⟨trivial, trivial, trivial, [some err], by simp, rfl, by simp, by simp, by simp, ?_⟩
        simp only [lastDecides, List.getLast?_singleton, hs, List.length_singleton, and_true]
        have : max n 1 = 1 := max_eq_right (by omega)
        rw [this]; rfl
  | succ k ih =>
    intro n hlo hhi hk t pre z
    have hw : wrapInt (n - 1) = n - 1 := wrapInt_of_range _ (by omega) (by omega)
    have hn1 : 0 < wrapInt (n - 1) := by rw [hw]; omega
    have hn2 : 0 < n - 1 := by omega
    rcases hg : g t with ⟨e, t1⟩
    have hr : returning (recorded g) (t, pre, z) = (.ret e, (t1, pre ++ [e], z)) := by
      simp [returning, recorded, hg]
    have hr0 : returning g t = (.ret e, t1) := by simp [returning, hg]
    cases e with
    | none =>
      rw [retry_nil _ _ _ _ _ _ hr, retry_nil _ _ _ _ _ _ hr0, retryLoop, hg]
      refine ⟨rfl, rfl, rfl, [none], by simp, rfl, by simp, ?_, by simp, by simp [lastDecides]⟩
      simp
    | some err =>
      cases hs : err.asStop with
      | some inner =>
        rw [retry_stop _ _ _ _ _ _ _ _ hr hs, retry_stop _ _ _ _ _ _ _ _ hr0 hs, retryLoop, hg]
        simp only [hs]
        refine ⟨trivial, trivial, trivial, [some err], by simp, rfl, by simp, ?_, by simp,
          by simp [lastDecides, hs]⟩
        simp
      | none =>
        rw [retry_again _ _ _ _ _ _ _ hr hs hn1, retry_again _ _ _ _ _ _ _ hr0 hs hn1, retryLoop, hg]
        simp only [hs, hn2, dite_true, hw]
        obtain ⟨h1, h2, h3, rs, hne, hlog, hz, hlen, hmid, hlast⟩ :=
          ih (n - 1) (by omega) (by omega) (by omega) (wait d t1) (pre ++ [some err]) (z + 1)
        refine ⟨h1, h2, h3, some err :: rs, by simp, ?_, ?_, ?_, ?_, ?_⟩
        · simpa [countedSleep] using hlog
        · simp only [countedSleep] at hz ⊢
          simp only [List.length_cons]
          omega
        · have e1 : max (n - 1) 1 = n - 1 := max_eq_left (by omega)
          have e2 : max n 1 = n := max_eq_left (by omega)
          rw [e1] at hlen
          rw [e2]
          simp only [List.length_cons]
          push_cast
          omega
        · intro e he
          obtain ⟨a, as, rfl⟩ := List.exists_cons_of_ne_nil hne
          rw [List.dropLast_cons₂] at he
          rcases List.mem_cons.mp he with rfl | he
          · exact ⟨err, rfl, hs⟩
          · exact hmid e he
        · exact lastDecides_cons n (by omega) _ rs _ hne hlast

/-! ## Facts about Do and Login -/

theorem DoRequest_cases {σ : Type} (env : Env σ) (m u buf : String) (w : World σ) :
    DoRequest env m u buf w = (.panic nilDeref, w)
      ∨ ∃ (resp : Option HTTPResponse) (err : Option GoError) (net1 : σ),
          DoRequest env m u buf w
            = (.ret (resp, err),
                { client := w.client, net := net1,
                  trace := w.trace ++ [.send ⟨m, u, headers w.client.Token, buf⟩] })
          ∧ ((resp = none ∧ ∃ le, err = some (.lib le)) ∨ (resp ≠ none ∧ err = none)) := by
  unfold DoRequest
  cases env.newRequest m u with
  | some e => exact Or.inl rfl
  | none =>
    right
    simp only [headers]
    rcases env.send w.net _ with ⟨res, net1⟩
    cases res with
    | error err => exact ⟨none, _, net1, rfl, Or.inl ⟨rfl, err, rfl⟩⟩
    | ok resp => exact ⟨some resp, none, net1, rfl, Or.inr ⟨by simp, rfl⟩⟩

/-- Every way `Do` can end: the world is untouched but for the server state
and at most one request in the log, and an error it returns is a library error. -/
theorem Do_cases {σ : Type} (env : Env σ) (m u : String) (b : Body) (w : World σ) :
    ∃ (res : Run (Option Response × Option GoError)) (net1 : σ) (sent : List Event),
      Do env m u b w = (res, { client := w.client, net := net1, trace := w.trace ++ sent })
      ∧ (sent = [] ∨ ∃ buf, sent = [.send ⟨m, u, headers w.client.Token, buf⟩])
      ∧ (∀ r, res = .ret (r, none) → sent ≠ [])
      ∧ (∀ r e, res = .ret (r, some e) → ∃ le, e = .lib le) := by
  unfold Do
  cases env.marshal b with
  | error err =>
    exact ⟨.ret (none, some (.lib err)), w.net, [], by simp, Or.inl rfl, by simp,
      by intro r e h; cases h; exact ⟨_, rfl⟩⟩
  | ok bodyData =>
    rcases DoRequest_cases env m u (if b.isNone then "" else bodyData) w with h | ⟨resp, err, net1, h, hc⟩
    · simp only [h]
      exact ⟨.panic nilDeref, w.net, [], by simp, Or.inl rfl, by simp, by simp⟩
    · simp only [h]
      rcases hc with ⟨rfl, le, rfl⟩ | ⟨hr, rfl⟩
      · exact ⟨.ret (none, some (.lib le)), net1, _, rfl, Or.inr ⟨_, rfl⟩, by simp,
          by intro r e h; cases h; exact ⟨_, rfl⟩⟩
      · cases resp with
        | none => exact absurd rfl hr
        | some resp =>
          simp only
          cases resp.Body with
          | error err =>
            exact ⟨.ret (none, some (.lib err)), net1, _, rfl, Or.inr ⟨_, rfl⟩, by simp,
              by intro r e h; cases h; exact ⟨_, rfl⟩⟩
          | ok data =>
            simp only
            rcases env.unmarshal data with ⟨ret, e⟩
            cases e with
            | some err =>
              exact ⟨.ret (ret, some (.lib err)), net1, _, rfl, Or.inr ⟨_, rfl⟩, by simp,
                by intro r e h; cases h; exact ⟨_, rfl⟩⟩
            | none =>
              exact ⟨.ret (ret, none), net1, _, rfl, Or.inr ⟨_, rfl⟩, by simp, by simp⟩

theorem Value.asString_eq_some (v : Value) (s : String) (h : v.asString = some s) :
    v = .string s := by
  cases v <;> simp [Value.asString] at h
  rw [h]

/-- Every way `Login` can end. The token changes only when `Login` returns a
nil error, and then it is the string payload of the envelope. -/
theorem Login_cases {σ : Type} (env : Env σ) (w : World σ) :
    ∃ (res : Run (Option Response × Option GoError)) (c1 : Client) (net1 : σ) (sent : List Event),
      Login env w = (res, { client := c1, net := net1, trace := w.trace ++ .login :: sent })
      ∧ (sent = [] ∨ ∃ buf, sent = [.send ⟨"post", loginURL w.client, headers w.client.Token, buf⟩])
      ∧ (∀ r, res = .ret (r, none) →
          ∃ lr tok, r = some lr ∧ lr.Data = .string tok ∧ c1 = { w.client with Token := tok }
            ∧ sent ≠ [])
      ∧ ((∀ r, res ≠ .ret (r, none)) → c1 = w.client)
      ∧ (∀ r e, res = .ret (r, some e) → (∃ le, e = .lib le) ∨ e = .errorf "数据格式错误" []) := by
  obtain ⟨res, net1, sent, h, hsent, hok, herr⟩ :=
    Do_cases env "post" (loginURL w.client) (credentials w.client) (w.log .login)
  have hl : Login env w
      = (match (res, ({ client := w.client, net := net1, trace := w.trace ++ .login :: sent } : World σ)) with
        | (.panic m, w1) => (.panic m, w1)
        | (.ret (r, some err), w1) => (.ret (r, some err), w1)
        | (.ret (none, none), w1) => (.panic nilDeref, w1)
        | (.ret (some r, none), w1) =>
          match r.Data.asString with
          | none => (.ret (some r, some (.errorf "数据格式错误" [])), w1)
          | some token =>
            (.ret (some r, none), { w1 with client := { w1.client with Token := token } })) := by
    unfold Login
    simp only [loginURL, credentials, World.log, List.append_assoc, List.singleton_append] at h
    simp only [World.log, h]
  simp only [World.log] at hsent
  rw [hl]
  match res, hok, herr with
  | .panic m, _, _ =>
    exact ⟨.panic m, w.client, net1, sent, rfl, hsent, by simp, by simp, by simp⟩
  | .ret (r, some err), _, herr =>
    cases r <;>
    exact ⟨.ret (_, some err), w.client, net1, sent, rfl, hsent, by simp, by simp,
      by intro r1 e1 h1; cases h1; exact Or.inl (herr _ _ rfl)⟩
  | .ret (none, none), _, _ =>
    exact ⟨.panic nilDeref, w.client, net1, sent, rfl, hsent, by simp, by simp, by simp⟩
  | .ret (some r, none), hok, _ =>
    simp only
    cases hd : r.Data.asString with
    | none =>
      exact ⟨.ret (some r, some (.errorf "数据格式错误" [])), w.client, net1, sent, rfl, hsent,
        by simp, by simp, by intro r1 e1 h1; cases h1; exact Or.inr rfl⟩
    | some token =>
      refine ⟨.ret (some r, none), { w.client with Token := token }, net1, sent, rfl, hsent,
        ?_, ?_, by simp⟩
      · intro r1 h1
        cases h1
        exact ⟨r, token, rfl, Value.asString_eq_some _ _ hd, rfl, hok _ rfl⟩
      · intro h1
        exact absurd rfl (h1 (some r))

theorem Login_of_error {σ : Type} (env : Env σ) (w w1 : World σ) (r : Option Response)
    (e : GoError)
    (h : Do env "post" (loginURL w.client) (credentials w.client) (w.log .login)
          = (.ret (r, some e), w1)) :
    Login env w = (.ret (r, some e), w1) := by
  unfold Login
  simp only [loginURL, credentials, World.log] at h
  simp only [World.log, h]

theorem Login_of_malformed {σ : Type} (env : Env σ) (w w1 : World σ) (r : Response)
    (h : Do env "post" (loginURL w.client) (credentials w.client) (w.log .login)
          = (.ret (some r, none), w1))
    (hd : r.Data.asString = none) :
    Login env w = (.ret (some r, some (.errorf "数据格式错误" [])), w1) := by
  unfold Login
  simp only [loginURL, credentials, World.log] at h
  simp only [World.log, h, hd]

theorem Login_of_token {σ : Type} (env : Env σ) (w w1 : World σ) (r : Response) (s : String)
    (h : Do env "post" (loginURL w.client) (credentials w.client) (w.log .login)
          = (.ret (some r, none), w1))
    (hd : r.Data = .string s) :
    Login env w = (.ret (some r, none), { w1 with client := { w1.client with Token := s } }) := by
  unfold Login
  simp only [loginURL, credentials, World.log] at h
  simp only [World.log, h, hd, Value.asString]

theorem Do_client {σ : Type} (env : Env σ) (m u : String) (b : Body) (w : World σ) :
    (Do env m u b w).2.client = w.client := by
  obtain ⟨res, net1, sent, h, _⟩ := Do_cases env m u b w
  rw [h]

theorem Value.asString_eq_none (v : Value) (h : ∀ s, v ≠ .string s) : v.asString = none := by
  cases v <;> simp [Value.asString] at h ⊢

/-- The outcomes of the login exchange that `Login` handles: if `Do` returns
an error, or a non-nil envelope whose `Data` is not a string, `Login` returns
a non-nil error and the client is as before; if it returns a non-nil envelope
whose `Data` is the string `s`, `Login` returns a nil error and the client is
as before except that `Token` is `s`. The nil envelope is not among them. -/
theorem Login_atomic_and_exact {σ : Type} (env : Env σ) (w : World σ) :
    (∀ (r : Option Response) (e : GoError) (w1 : World σ),
        Do env "post" (loginURL w.client) (credentials w.client) (w.log .login)
            = (.ret (r, some e), w1) →
        Login env w = (.ret (r, some e), w1) ∧ (Login env w).2.client = w.client)
    ∧ (∀ (r : Response) (w1 : World σ),
        Do env "post" (loginURL w.client) (credentials w.client) (w.log .login)
            = (.ret (some r, none), w1) →
        (∀ s, r.Data ≠ .string s) →
        (∃ e, (Login env w).1 = .ret (some r, some e)) ∧ (Login env w).2.client = w.client)
    ∧ (∀ (r : Response) (w1 : World σ) (s : String),
        Do env "post" (loginURL w.client) (credentials w.client) (w.log .login)
            = (.ret (some r, none), w1) →
        r.Data = .string s →
        (Login env w).1 = .ret (some r, none)
          ∧ (Login env w).2.client = { w.client with Token := s }) := by
  refine ⟨?_, ?_, ?_⟩
  · intro r e w1 h
    have hc := Do_client env "post" (loginURL w.client) (credentials w.client) (w.log .login)
    rw [h] at hc
    rw [Login_of_error env w w1 r e h]
    exact ⟨rfl, hc⟩
  · intro r w1 h hd
    have hc := Do_client env "post" (loginURL w.client) (credentials w.client) (w.log .login)
    rw [h] at hc
    rw [Login_of_malformed env w w1 r h (Value.asString_eq_none _ hd)]
    exact ⟨⟨_, rfl⟩, hc⟩
  · intro r w1 s h hd
    have hc := Do_client env "post" (loginURL w.client) (credentials w.client) (w.log .login)
    rw [h] at hc
    rw [Login_of_token env w w1 r s h hd]
    simp only [World.log] at hc
    simp only [hc, and_self]

/-- A concrete login that succeeds: the server answers with the token "tok2". -/
theorem Login_atomic_and_exact_witness :
    (Login (scripted [reply "\x7b\"Code\":0,\"Data\":\"tok2\"\x7d"]) (World.start demoClient 0)).1
        = .ret (some { Code := 0, Data := .string "tok2" }, none)
      ∧ (Login (scripted [reply "\x7b\"Code\":0,\"Data\":\"tok2\"\x7d"])
          (World.start demoClient 0)).2.client
        = { demoClient with Token := "tok2" } :=
  (Login_atomic_and_exact (scripted [reply "\x7b\"Code\":0,\"Data\":\"tok2\"\x7d"])
    (World.start demoClient 0)).2.2 { Code := 0, Data := .string "tok2" } _ "tok2" rfl rfl

/-- C6 fails on the code: when the body of the login response is the JSON
`null`, the exchange `Do` returns a nil envelope with a nil error, and `Login`
dereferences it at `r.Data` and panics instead of returning an error. -/
theorem Login_panics_on_null_envelope :
    Do (scripted [reply "null"]) "post" (loginURL demoClient) (credentials demoClient)
        ((World.start demoClient 0).log .login)
      = (.ret (none, none),
          { client := demoClient, net := 1,
            trace := [.login,
              .send ⟨"post", "http://h/login", headers "tok1", "\x7b\"name\":\"a\"\x7d"⟩] })
      ∧ Login (scripted [reply "null"]) (World.start demoClient 0)
      = (.panic nilDeref,
          { client := demoClient, net := 1,
            trace := [.login,
              .send ⟨"post", "http://h/login", headers "tok1", "\x7b\"name\":\"a\"\x7d"⟩] }) :=
  ⟨rfl, rfl⟩

/-- C7 fails on the code: a login response with the non-zero status code 1 and
a string payload makes `Login` return a nil error and overwrite the token. -/
theorem Login_accepts_nonzero_code :
    Login (scripted [reply "\x7b\"Code\":1,\"Message\":\"bad credentials\",\"Data\":\"guest\"\x7d"])
        (World.start demoClient 0)
      = (.ret (some { Code := 1, Message := "bad credentials", Data := .string "guest" }, none),
          { client := { demoClient with Token := "guest" }, net := 1,
            trace := [.login,
              .send ⟨"post", "http://h/login", headers "tok1", "\x7b\"name\":\"a\"\x7d"⟩] }) := by
  rfl

/-- C8 fails on the code at `Login`: the method of the request it sends is the
lower-case "post", which is not "POST". -/
theorem Login_sends_lowercase_post :
    sends (Login (scripted [reply "\x7b\"Code\":0,\"Data\":\"tok2\"\x7d"])
        (World.start demoClient 0)).2.trace
      = [⟨"post", "http://h/login", headers "tok1", "\x7b\"name\":\"a\"\x7d"⟩]
      ∧ "post" ≠ "POST" := by
  exact ⟨rfl, by decide⟩

/-- C10 fails on the code: when `http.NewRequest` fails (here on the document
id "%zz"), `DoRequest` panics on the nil request instead of returning the
error, and so do `Do` and `Get`. -/
theorem DoRequest_panics_on_bad_url :
    (scripted []).newRequest "GET" "http://h/idx/doc/%zz" = some ⟨"invalid URL escape"⟩
      ∧ DoRequest (scripted []) "GET" "http://h/idx/doc/%zz" "" (World.start demoClient 0)
          = (.panic nilDeref, World.start demoClient 0)
      ∧ Do (scripted []) "GET" "http://h/idx/doc/%zz" none (World.start demoClient 0)
          = (.panic nilDeref, World.start demoClient 0)
      ∧ (Get (scripted []) "idx" "doc" "%zz" (World.start demoClient 0)).1 = .panic nilDeref := by
  refine ⟨rfl, rfl, rfl, ?_⟩
  rw [Get_eq_operation]
  unfold operation
  have h : attempt (scripted []) "GET" (docURL (World.start demoClient 0).client "idx" "doc" "%zz")
      none (World.start demoClient 0, some {})
        = (.panic nilDeref, (World.start demoClient 0, some {})) := rfl
  rw [retry_panic _ _ _ _ _ _ _ h]

/-! ## Facts about the log -/

theorem documents_append (a b : List Event) : documents (a ++ b) = documents a ++ documents b := by
  simp [documents, List.filterMap_append]

theorem logins_append (a b : List Event) : logins (a ++ b) = logins a + logins b := by
  simp [logins, List.filterMap_append]

theorem sleeps_append (a b : List Event) : sleeps (a ++ b) = sleeps a ++ sleeps b := by
  simp [sleeps, List.filterMap_append]

theorem sends_append (a b : List Event) : sends (a ++ b) = sends a ++ sends b := by
  simp [sends, List.filterMap_append]

theorem Do_ok {σ : Type} (env : Env σ) (m u : String) (b : Body) (w w1 : World σ)
    (r : Option Response) (h : Do env m u b w = (.ret (r, none), w1)) :
    ∃ buf, w1 = { client := w.client, net := w1.net,
                  trace := w.trace ++ [.send ⟨m, u, headers w.client.Token, buf⟩] } := by
  obtain ⟨res, net1, sent, h1, hsent, hok, _⟩ := Do_cases env m u b w
  rw [h] at h1
  injection h1 with hres hw
  subst hres
  rcases hsent with rfl | ⟨buf, rfl⟩
  · exact absurd rfl (hok r rfl)
  · exact ⟨buf, by rw [hw]⟩

theorem Do_log {σ : Type} (env : Env σ) (m u : String) (b : Body) (w w1 : World σ)
    (res : Run (Option Response × Option GoError)) (h : Do env m u b w = (res, w1)) :
    w1.client = w.client ∧ documents w1.trace = documents w.trace
      ∧ logins w1.trace = logins w.trace ∧ sleeps w1.trace = sleeps w.trace := by
  obtain ⟨res1, net1, sent, h1, hsent, _, _⟩ := Do_cases env m u b w
  rw [h] at h1
  injection h1 with hres hw
  subst hw
  rcases hsent with rfl | ⟨buf, rfl⟩ <;>
    simp [documents, logins, sleeps, List.filterMap_append]

theorem Login_ok {σ : Type} (env : Env σ) (w w1 : World σ) (r : Option Response)
    (h : Login env w = (.ret (r, none), w1)) :
    ∃ lr tok buf, r = some lr ∧ lr.Data = .string tok
      ∧ w1.client = { w.client with Token := tok }
      ∧ w1.trace = w.trace ++ [.login,
          .send ⟨"post", loginURL w.client, headers w.client.Token, buf⟩] := by
  obtain ⟨res, c1, net1, sent, h1, hsent, hok, _, _⟩ := Login_cases env w
  rw [h] at h1
  injection h1 with hres hw
  subst hres
  obtain ⟨lr, tok, hr, hd, hc, hne⟩ := hok r rfl
  rcases hsent with rfl | ⟨buf, rfl⟩
  · exact absurd rfl hne
  · exact ⟨lr, tok, buf, hr, hd, by rw [hw, hc], by rw [hw]⟩

theorem Login_log {σ : Type} (env : Env σ) (w w1 : World σ)
    (res : Run (Option Response × Option GoError)) (h : Login env w = (res, w1)) :
    documents w1.trace = documents w.trace
      ∧ logins w1.trace = logins w.trace + 1 ∧ sleeps w1.trace = sleeps w.trace := by
  obtain ⟨res1, c1, net1, sent, h1, hsent, _, _, _⟩ := Login_cases env w
  rw [h] at h1
  injection h1 with hres hw
  subst hw
  rcases hsent with rfl | ⟨buf, rfl⟩ <;>
    simp [documents, logins, sleeps, List.filterMap_append]

/-! ## Facts about one attempt -/

theorem attempt_of_panic {σ : Type} (env : Env σ) (m u : String) (b : Body)
    (t : World σ × Option Response) (msg : String) (w1 : World σ)
    (h : Do env m u b t.1 = (.panic msg, w1)) :
    attempt env m u b t = (.panic msg, (w1, t.2)) := by
  simp only [attempt, h]

theorem attempt_of_error {σ : Type} (env : Env σ) (m u : String) (b : Body)
    (t : World σ × Option Response) (r : Option Response) (e : GoError) (w1 : World σ)
    (h : Do env m u b t.1 = (.ret (r, some e), w1)) :
    attempt env m u b t
      = (.ret (some (.stop (some e))), (w1.log (.document r (some e)), r)) := by
  simp only [attempt, h]

theorem attempt_of_null {σ : Type} (env : Env σ) (m u : String) (b : Body)
    (t : World σ × Option Response) (w1 : World σ)
    (h : Do env m u b t.1 = (.ret (none, none), w1)) :
    attempt env m u b t = (.panic nilDeref, (w1.log (.document none none), none)) := by
  simp only [attempt, h]

theorem attempt_of_settled {σ : Type} (env : Env σ) (m u : String) (b : Body)
    (t : World σ × Option Response) (r : Response) (w1 : World σ)
    (h : Do env m u b t.1 = (.ret (some r, none), w1)) (hc : r.Code ≠ authErr) :
    attempt env m u b t = (.ret none, (w1.log (.document (some r) none), some r)) := by
  simp only [attempt, h, hc, ne_eq, not_false_eq_true, ite_true]

theorem attempt_of_login_panic {σ : Type} (env : Env σ) (m u : String) (b : Body)
    (t : World σ × Option Response) (r : Response) (w1 w2 : World σ) (msg : String)
    (h : Do env m u b t.1 = (.ret (some r, none), w1)) (hc : r.Code = authErr)
    (hl : Login env (w1.log (.document (some r) none)) = (.panic msg, w2)) :
    attempt env m u b t = (.panic msg, (w2, some r)) := by
  simp only [attempt, h, hc, ne_eq, not_true_eq_false, ite_false, hl]

theorem attempt_of_login_error {σ : Type} (env : Env σ) (m u : String) (b : Body)
    (t : World σ × Option Response) (r : Response) (w1 w2 : World σ) (lr : Option Response)
    (e : GoError)
    (h : Do env m u b t.1 = (.ret (some r, none), w1)) (hc : r.Code = authErr)
    (hl : Login env (w1.log (.document (some r) none)) = (.ret (lr, some e), w2)) :
    attempt env m u b t = (.ret (some (.stop (some e))), (w2, some r)) := by
  simp only [attempt, h, hc, ne_eq, not_true_eq_false, ite_false, hl]

theorem attempt_of_relogin {σ : Type} (env : Env σ) (m u : String) (b : Body)
    (t : World σ × Option Response) (r : Response) (w1 w2 : World σ) (lr : Option Response)
    (h : Do env m u b t.1 = (.ret (some r, none), w1)) (hc : r.Code = authErr)
    (hl : Login env (w1.log (.document (some r) none)) = (.ret (lr, none), w2)) :
    attempt env m u b t = (.ret (some ErrNoAuth), (w2, some r)) := by
  simp only [attempt, h, hc, ne_eq, not_true_eq_false, ite_false, hl]

/-! ## Facts about the retry loop of a document operation -/

theorem wrapInt_attempts : wrapInt (attempts - 1) = 2 := by decide

theorem wrapInt_two : wrapInt (2 - 1) = 1 := by decide

theorem wrapInt_one : wrapInt (1 - 1) = 0 := by decide

theorem ErrNoAuth_asStop : ErrNoAuth.asStop = none := rfl

/-- At any attempt, whatever budget is left: an error returned by `Do` ends
the loop there, and the loop returns that error. -/
theorem retry_exchange_error {σ : Type} (env : Env σ) (m u : String) (b : Body) (n : Int)
    (t : World σ × Option Response) (r : Option Response) (e : GoError) (w1 : World σ)
    (h : Do env m u b t.1 = (.ret (r, some e), w1)) :
    retry timeSleep n sleep (attempt env m u b) t
      = (.ret (some e), (w1.log (.document r (some e)), r)) :=
  retry_stop _ _ _ _ _ _ _ _ (attempt_of_error env m u b t r e w1 h) rfl

theorem retry_settled {σ : Type} (env : Env σ) (m u : String) (b : Body) (n : Int)
    (t : World σ × Option Response) (r : Response) (w1 : World σ)
    (h : Do env m u b t.1 = (.ret (some r, none), w1)) (hc : r.Code ≠ authErr) :
    retry timeSleep n sleep (attempt env m u b) t
      = (.ret none, (w1.log (.document (some r) none), some r)) :=
  retry_nil _ _ _ _ _ _ (attempt_of_settled env m u b t r w1 h hc)

theorem retry_relogin {σ : Type} (env : Env σ) (m u : String) (b : Body) (n : Int)
    (t : World σ × Option Response) (r : Response) (w1 w2 : World σ) (lr : Option Response)
    (h : Do env m u b t.1 = (.ret (some r, none), w1)) (hc : r.Code = authErr)
    (hl : Login env (w1.log (.document (some r) none)) = (.ret (lr, none), w2))
    (hn : 0 < wrapInt (n - 1)) :
    retry timeSleep n sleep (attempt env m u b) t
      = retry timeSleep (wrapInt (n - 1)) sleep (attempt env m u b) (w2.log (.sleep sleep), some r) :=
  retry_again _ _ _ _ _ _ _ (attempt_of_relogin env m u b t r w1 w2 lr h hc hl) rfl hn

theorem retry_exhausted {σ : Type} (env : Env σ) (m u : String) (b : Body) (n : Int)
    (t : World σ × Option Response) (r : Response) (w1 w2 : World σ) (lr : Option Response)
    (h : Do env m u b t.1 = (.ret (some r, none), w1)) (hc : r.Code = authErr)
    (hl : Login env (w1.log (.document (some r) none)) = (.ret (lr, none), w2))
    (hn : ¬ 0 < wrapInt (n - 1)) :
    retry timeSleep n sleep (attempt env m u b) t = (.ret (some ErrNoAuth), (w2, some r)) :=
  retry_last _ _ _ _ _ _ _ (attempt_of_relogin env m u b t r w1 w2 lr h hc hl) rfl hn

theorem operation_first_error {σ : Type} (env : Env σ) (m u : String) (b : Body)
    (format : String) (w w1 : World σ) (r : Option Response) (e : GoError)
    (h : Do env m u b w = (.ret (r, some e), w1)) :
    operation env m u b format w = (.ret (some e), w1.log (.document r (some e))) := by
  unfold operation
  rw [retry_exchange_error env m u b _ (w, some {}) r e w1 h]

theorem operation_second_error {σ : Type} (env : Env σ) (m u : String) (b : Body)
    (format : String) (w w1 w2 w3 : World σ) (r1 : Response) (lr r : Option Response)
    (e : GoError)
    (h1 : Do env m u b w = (.ret (some r1, none), w1)) (hc1 : r1.Code = authErr)
    (hl1 : Login env (w1.log (.document (some r1) none)) = (.ret (lr, none), w2))
    (h2 : Do env m u b (w2.log (.sleep sleep)) = (.ret (r, some e), w3)) :
    operation env m u b format w = (.ret (some e), w3.log (.document r (some e))) := by
  unfold operation
  rw [retry_relogin env m u b _ (w, some {}) r1 w1 w2 lr h1 hc1 hl1 (by decide),
    retry_exchange_error env m u b _ (w2.log (.sleep sleep), some r1) r e w3 h2]

theorem operation_third_error {σ : Type} (env : Env σ) (m u : String) (b : Body)
    (format : String) (w w1 w2 w3 w4 w5 : World σ) (r1 r2 : Response)
    (lr1 lr2 r : Option Response) (e : GoError)
    (h1 : Do env m u b w = (.ret (some r1, none), w1)) (hc1 : r1.Code = authErr)
    (hl1 : Login env (w1.log (.document (some r1) none)) = (.ret (lr1, none), w2))
    (h2 : Do env m u b (w2.log (.sleep sleep)) = (.ret (some r2, none), w3))
    (hc2 : r2.Code = authErr)
    (hl2 : Login env (w3.log (.document (some r2) none)) = (.ret (lr2, none), w4))
    (h3 : Do env m u b (w4.log (.sleep sleep)) = (.ret (r, some e), w5)) :
    operation env m u b format w = (.ret (some e), w5.log (.document r (some e))) := by
  unfold operation
  rw [retry_relogin env m u b _ (w, some {}) r1 w1 w2 lr1 h1 hc1 hl1 (by decide),
    wrapInt_attempts,
    retry_relogin env m u b _ (w2.log (.sleep sleep), some r1) r2 w3 w4 lr2 h2 hc2 hl2 (by decide),
    retry_exchange_error env m u b _ (w4.log (.sleep sleep), some r2) r e w5 h3]

theorem operation_settled_first {σ : Type} (env : Env σ) (m u : String) (b : Body)
    (format : String) (w w1 : World σ) (r : Response)
    (h : Do env m u b w = (.ret (some r, none), w1)) (hc : r.Code ≠ authErr) :
    operation env m u b format w
      = (if r.Code ≠ 0 then
            (.ret (some (.errorf format [.int r.Code, .str r.Message])),
              w1.log (.document (some r) none))
          else (.ret none, w1.log (.document (some r) none))) := by
  unfold operation
  rw [retry_settled env m u b _ (w, some {}) r w1 h hc]

theorem operation_settled_second {σ : Type} (env : Env σ) (m u : String) (b : Body)
    (format : String) (w w1 w2 w3 : World σ) (r1 r2 : Response) (lr : Option Response)
    (h1 : Do env m u b w = (.ret (some r1, none), w1)) (hc1 : r1.Code = authErr)
    (hl1 : Login env (w1.log (.document (some r1) none)) = (.ret (lr, none), w2))
    (h2 : Do env m u b (w2.log (.sleep sleep)) = (.ret (some r2, none), w3))
    (hc2 : r2.Code ≠ authErr) :
    operation env m u b format w
      = (if r2.Code ≠ 0 then
            (.ret (some (.errorf format [.int r2.Code, .str r2.Message])),
              w3.log (.document (some r2) none))
          else (.ret none, w3.log (.document (some r2) none))) := by
  unfold operation
  rw [retry_relogin env m u b _ (w, some {}) r1 w1 w2 lr h1 hc1 hl1 (by decide),
    retry_settled env m u b _ (w2.log (.sleep sleep), some r1) r2 w3 h2 hc2]

theorem operation_exhausted {σ : Type} (env : Env σ) (m u : String) (b : Body)
    (format : String) (w w1 w2 w3 w4 w5 w6 : World σ) (r1 r2 r3 : Response)
    (lr1 lr2 lr3 : Option Response)
    (h1 : Do env m u b w = (.ret (some r1, none), w1)) (hc1 : r1.Code = authErr)
    (hl1 : Login env (w1.log (.document (some r1) none)) = (.ret (lr1, none), w2))
    (h2 : Do env m u b (w2.log (.sleep sleep)) = (.ret (some r2, none), w3))
    (hc2 : r2.Code = authErr)
    (hl2 : Login env (w3.log (.document (some r2) none)) = (.ret (lr2, none), w4))
    (h3 : Do env m u b (w4.log (.sleep sleep)) = (.ret (some r3, none), w5))
    (hc3 : r3.Code = authErr)
    (hl3 : Login env (w5.log (.document (some r3) none)) = (.ret (lr3, none), w6)) :
    operation env m u b format w = (.ret (some ErrNoAuth), w6) := by
  unfold operation
  rw [retry_relogin env m u b _ (w, some {}) r1 w1 w2 lr1 h1 hc1 hl1 (by decide),
    wrapInt_attempts,
    retry_relogin env m u b _ (w2.log (.sleep sleep), some r1) r2 w3 w4 lr2 h2 hc2 hl2 (by decide),
    wrapInt_two,
    retry_exhausted env m u b _ (w4.log (.sleep sleep), some r2) r3 w5 w6 lr3 h3 hc3 hl3
      (by decide)]

/-! ## The log along an operation -/

theorem log_after_document {σ : Type} (env : Env σ) (m u : String) (b : Body) (w w1 : World σ)
    (r : Option Response) (e : Option GoError) (h : Do env m u b w = (.ret (r, e), w1)) :
    documents (w1.log (.document r e)).trace = documents w.trace ++ [(r, e)]
      ∧ logins (w1.log (.document r e)).trace = logins w.trace
      ∧ sleeps (w1.log (.document r e)).trace = sleeps w.trace := by
  obtain ⟨_, hd, hl, hs⟩ := Do_log env m u b w w1 _ h
  simp only [World.log, documents_append, logins_append, sleeps_append, hd, hl, hs]
  exact ⟨rfl, rfl, by simp [sleeps]⟩

theorem log_after_relogin {σ : Type} (env : Env σ) (m u : String) (b : Body) (w w1 w2 : World σ)
    (r : Response) (res : Run (Option Response × Option GoError)) (d : Int)
    (h : Do env m u b w = (.ret (some r, none), w1))
    (hl : Login env (w1.log (.document (some r) none)) = (res, w2)) :
    (documents w2.trace = documents w.trace ++ [(some r, none)]
      ∧ logins w2.trace = logins w.trace + 1
      ∧ sleeps w2.trace = sleeps w.trace)
    ∧ (documents (w2.log (.sleep d)).trace = documents w.trace ++ [(some r, none)]
      ∧ logins (w2.log (.sleep d)).trace = logins w.trace + 1
      ∧ sleeps (w2.log (.sleep d)).trace = sleeps w.trace ++ [d]) := by
  obtain ⟨hd, hl1, hs⟩ := log_after_document env m u b w w1 _ _ h
  obtain ⟨hd2, hl2, hs2⟩ := Login_log env _ w2 res hl
  rw [hd] at hd2
  rw [hl1] at hl2
  rw [hs] at hs2
  refine ⟨⟨hd2, hl2, hs2⟩, ?_⟩
  simp only [World.log, documents_append, logins_append, sleeps_append, hd2, hl2, hs2]
  exact ⟨by simp [documents], rfl, rfl⟩

/-! ## The properties hold of the common shape -/

theorem operation_stops {σ : Type} (env : Env σ) (m u : String) (b : Body) (format : String)
    (w : World σ) : StopsAtExchangeError env m u b (operation env m u b format) w := by
  refine ⟨?_, ?_, ?_⟩
  · intro r e w1 h
    have ho := operation_first_error env m u b format w w1 r e h
    refine ⟨ho, ?_⟩
    obtain ⟨hd, hl, hs⟩ := log_after_document env m u b w w1 _ _ h
    rw [Performed, ho]
    exact ⟨rfl, hd, by simpa using hl, by simpa using hs⟩
  · intro r1 lr r e w1 w2 w3 h1 hc1 hl1 h2
    have ho := operation_second_error env m u b format w w1 w2 w3 r1 lr r e h1 hc1 hl1 h2
    refine ⟨ho, ?_⟩
    obtain ⟨_, hd1, hn1, hs1⟩ := log_after_relogin env m u b w w1 w2 r1 _ sleep h1 hl1
    obtain ⟨hd, hl, hs⟩ := log_after_document env m u b _ w3 _ _ h2
    rw [Performed, ho]
    refine ⟨rfl, ?_, ?_, ?_⟩
    · simp only [hd, hd1, List.append_assoc, List.singleton_append]
    · simp only [hl, hn1]
    · simp only [hs, hs1]
  · intro r1 r2 lr1 lr2 r e w1 w2 w3 w4 w5 h1 hc1 hl1 h2 hc2 hl2 h3
    have ho := operation_third_error env m u b format w w1 w2 w3 w4 w5 r1 r2 lr1 lr2 r e
      h1 hc1 hl1 h2 hc2 hl2 h3
    refine ⟨ho, ?_⟩
    obtain ⟨_, hd1, hn1, hs1⟩ := log_after_relogin env m u b w w1 w2 r1 _ sleep h1 hl1
    obtain ⟨_, hd2, hn2, hs2⟩ := log_after_relogin env m u b _ w3 w4 r2 _ sleep h2 hl2
    obtain ⟨hd, hl, hs⟩ := log_after_document env m u b _ w5 _ _ h3
    rw [Performed, ho]
    refine ⟨rfl, ?_, ?_, ?_⟩
    · simp [hd, hd2, hd1]
    · simp only [hl, hn2, hn1]
    · simp [hs, hs2, hs1]

theorem containsText_middle (a t c : String) : containsText (a ++ t ++ c) t :=
  ⟨a.data, c.data, by simp⟩

theorem containsText_end (a t : String) : containsText (a ++ t) t :=
  ⟨a.data, [], by simp⟩

theorem operation_reports {σ : Type} (env : Env σ) (m u : String) (b : Body)
    (format label : String) (w : World σ)
    (htext : ∀ (c : Int) (msg : String), Sprintf format [.int c, .str msg]
      = label ++ " failed, code: " ++ toString c ++ ", message: " ++ msg) :
    ReportsBusinessError env m u b label (operation env m u b format) w := by
  intro r w1 h h0 h16
  have ho := operation_settled_first env m u b format w w1 r h h16
  rw [if_pos h0] at ho
  obtain ⟨hd, hl, hs⟩ := log_after_document env m u b w w1 _ _ h
  refine ⟨.errorf format [.int r.Code, .str r.Message], ?_, htext _ _, ?_, ?_⟩
  · rw [Performed, ho]
    exact ⟨rfl, hd, by simpa using hl, by simpa using hs⟩
  · show containsText (Sprintf _ _) _
    rw [htext]
    exact containsText_middle (label ++ " failed, code: ") (toString r.Code)
      (", message: " ++ r.Message) |> fun h => by simpa [String.append_assoc] using h
  · show containsText (Sprintf _ _) _
    rw [htext]
    exact containsText_end _ _

theorem operation_refreshes {σ : Type} (env : Env σ) (m u : String) (b : Body) (format : String)
    (w : World σ) : RefreshesToken env m u b (operation env m u b format) w := by
  intro r1 lr r2 t w1 w2 w3 h1 hc1 hl1 hdata h2 hc2
  have hne : r2.Code ≠ authErr := by rw [hc2]; decide
  have ho := operation_settled_second env m u b format w w1 w2 w3 r1 r2 _ h1 hc1 hl1 h2 hne
  rw [if_neg (by simp [hc2])] at ho
  obtain ⟨_, hd1, hn1, hs1⟩ := log_after_relogin env m u b w w1 w2 r1 _ sleep h1 hl1
  obtain ⟨hd, hl, hs⟩ := log_after_document env m u b _ w3 _ _ h2
  refine ⟨?_, ?_⟩
  · rw [Performed, ho]
    refine ⟨rfl, ?_, ?_, ?_⟩
    · simp only [hd, hd1, List.append_assoc, List.singleton_append]
    · simp only [hl, hn1]
    · simp only [hs, hs1]
  · obtain ⟨b1, hw1⟩ := Do_ok env m u b w w1 _ h1
    obtain ⟨lr0, tok, b2, hlr, htok, hcl, htr⟩ := Login_ok env _ w2 _ hl1
    obtain ⟨b3, hw3⟩ := Do_ok env m u b _ w3 _ h2
    have ht : tok = t := by
      cases hlr
      rw [hdata] at htok
      injection htok with h'
      exact h'.symm
    subst ht
    refine ⟨b1, b2, b3, ?_⟩
    rw [ho, hw3]
    have e1 : w1.trace = w.trace ++ [.send ⟨m, u, headers w.client.Token, b1⟩] := by
      rw [hw1]
    have e2 : w1.client = w.client := by rw [hw1]
    simp only [World.log, htr, hcl, e1, e2, sends_append, headers]
    simp [sends]

theorem operation_exhausts {σ : Type} (env : Env σ) (m u : String) (b : Body) (format : String)
    (w : World σ) : ExhaustsAttempts env m u b (operation env m u b format) w := by
  intro r1 r2 r3 lr1 lr2 lr3 w1 w2 w3 w4 w5 w6 h1 hc1 hl1 h2 hc2 hl2 h3 hc3 hl3
  have ho := operation_exhausted env m u b format w w1 w2 w3 w4 w5 w6 r1 r2 r3 lr1 lr2 lr3
    h1 hc1 hl1 h2 hc2 hl2 h3 hc3 hl3
  obtain ⟨_, hd1, hn1, hs1⟩ := log_after_relogin env m u b w w1 w2 r1 _ sleep h1 hl1
  obtain ⟨_, hd2, hn2, hs2⟩ := log_after_relogin env m u b _ w3 w4 r2 _ sleep h2 hl2
  obtain ⟨⟨hd3, hn3, hs3⟩, _⟩ := log_after_relogin env m u b _ w5 w6 r3 _ sleep h3 hl3
  have hsleep : sleep = 1000000000 := by decide
  rw [Performed, ho]
  refine ⟨rfl, ?_, ?_, ?_⟩
  · simp [hd3, hd2, hd1]
  · simp only [hn3, hn2, hn1]
  · rw [hs3, hs2, hs1, hsleep]
    simp

theorem Sprintf_put_failed (c : Int) (msg : String) :
    Sprintf "Put failed, code: %v, message: %v" [.int c, .str msg]
      = "Put" ++ " failed, code: " ++ toString c ++ ", message: " ++ msg := by
  apply String.ext
  simp [Sprintf, sprintfAux, FmtArg.render]

theorem Sprintf_delete_failed (c : Int) (msg : String) :
    Sprintf "Delete failed, code: %v, message: %v" [.int c, .str msg]
      = "Delete" ++ " failed, code: " ++ toString c ++ ", message: " ++ msg := by
  apply String.ext
  simp [Sprintf, sprintfAux, FmtArg.render]

theorem Sprintf_post_failed (c : Int) (msg : String) :
    Sprintf "Post failed, code: %v, message: %v" [.int c, .str msg]
      = "Post" ++ " failed, code: " ++ toString c ++ ", message: " ++ msg := by
  apply String.ext
  simp [Sprintf, sprintfAux, FmtArg.render]

theorem StopsAtExchangeError_congr {σ : Type} (env : Env σ) (m u : String) (b : Body)
    (op1 op2 : World σ → Run (Option GoError) × World σ) (w : World σ) (h : op1 w = op2 w)
    (h2 : StopsAtExchangeError env m u b op2 w) : StopsAtExchangeError env m u b op1 w := by
  unfold StopsAtExchangeError at h2 ⊢
  rw [h]
  exact h2

theorem ReportsBusinessError_congr {σ : Type} (env : Env σ) (m u : String) (b : Body)
    (label : String) (op1 op2 : World σ → Run (Option GoError) × World σ) (w : World σ)
    (h : op1 w = op2 w) (h2 : ReportsBusinessError env m u b label op2 w) :
    ReportsBusinessError env m u b label op1 w := by
  unfold ReportsBusinessError at h2 ⊢
  rw [h]
  exact h2

theorem RefreshesToken_congr {σ : Type} (env : Env σ) (m u : String) (b : Body)
    (op1 op2 : World σ → Run (Option GoError) × World σ) (w : World σ) (h : op1 w = op2 w)
    (h2 : RefreshesToken env m u b op2 w) : RefreshesToken env m u b op1 w := by
  unfold RefreshesToken at h2 ⊢
  rw [h]
  exact h2

theorem ExhaustsAttempts_congr {σ : Type} (env : Env σ) (m u : String) (b : Body)
    (op1 op2 : World σ → Run (Option GoError) × World σ) (w : World σ) (h : op1 w = op2 w)
    (h2 : ExhaustsAttempts env m u b op2 w) : ExhaustsAttempts env m u b op1 w := by
  unfold ExhaustsAttempts at h2 ⊢
  rw [h]
  exact h2


/-! ## The claims about the four document operations -/

/-- C1: for each of Get, Update, Delete and Create, an error `e` returned by
the exchange `Client.Do` at the first, second or third attempt ends the
operation at that attempt and the operation returns `e` itself; when the
first exchange fails there is exactly one exchange, no call of Login and no
delay. -/
theorem exchange_error_is_fatal {σ : Type} (env : Env σ) (w : World σ)
    (index docType id : String) (data : Body) :
    StopsAtExchangeError env "GET" (docURL w.client index docType id) none
        (Get env index docType id) w
      ∧ StopsAtExchangeError env "PUT" (docURL w.client index docType id) data
        (Update env index docType id data) w
      ∧ StopsAtExchangeError env "DELETE" (docURL w.client index docType id) none
        (Delete env index docType id) w
      ∧ StopsAtExchangeError env "POST" (typeURL w.client index docType) data
        (Create env index docType data) w := by
  refine ⟨?_, ?_, ?_, ?_⟩
  · exact StopsAtExchangeError_congr _ _ _ _ _ _ _ (Get_eq_operation ..)
      (operation_stops env "GET" (docURL w.client index docType id) none
        "Put failed, code: %v, message: %v" w)
  · exact StopsAtExchangeError_congr _ _ _ _ _ _ _ (Update_eq_operation ..)
      (operation_stops env "PUT" (docURL w.client index docType id) data
        "Put failed, code: %v, message: %v" w)
  · exact StopsAtExchangeError_congr _ _ _ _ _ _ _ (Delete_eq_operation ..)
      (operation_stops env "DELETE" (docURL w.client index docType id) none
        "Delete failed, code: %v, message: %v" w)
  · exact StopsAtExchangeError_congr _ _ _ _ _ _ _ (Create_eq_operation ..)
      (operation_stops env "POST" (typeURL w.client index docType) data
        "Post failed, code: %v, message: %v" w)

/-- C2: for each of Get, Update, Delete and Create, a first envelope whose
code is neither 0 nor 16 makes the operation return, after exactly one
exchange, no Login and no delay, an error whose text contains the decimal
code and the message. -/
theorem business_error_after_one_exchange {σ : Type} (env : Env σ) (w : World σ)
    (index docType id : String) (data : Body) :
    ReportsBusinessError env "GET" (docURL w.client index docType id) none "Put"
        (Get env index docType id) w
      ∧ ReportsBusinessError env "PUT" (docURL w.client index docType id) data "Put"
        (Update env index docType id data) w
      ∧ ReportsBusinessError env "DELETE" (docURL w.client index docType id) none "Delete"
        (Delete env index docType id) w
      ∧ ReportsBusinessError env "POST" (typeURL w.client index docType) data "Post"
        (Create env index docType data) w := by
  refine ⟨?_, ?_, ?_, ?_⟩
  · exact ReportsBusinessError_congr _ _ _ _ _ _ _ _ (Get_eq_operation ..)
      (operation_reports env "GET" (docURL w.client index docType id) none
        "Put failed, code: %v, message: %v" "Put" w Sprintf_put_failed)
  · exact ReportsBusinessError_congr _ _ _ _ _ _ _ _ (Update_eq_operation ..)
      (operation_reports env "PUT" (docURL w.client index docType id) data
        "Put failed, code: %v, message: %v" "Put" w Sprintf_put_failed)
  · exact ReportsBusinessError_congr _ _ _ _ _ _ _ _ (Delete_eq_operation ..)
      (operation_reports env "DELETE" (docURL w.client index docType id) none
        "Delete failed, code: %v, message: %v" "Delete" w Sprintf_delete_failed)
  · exact ReportsBusinessError_congr _ _ _ _ _ _ _ _ (Create_eq_operation ..)
      (operation_reports env "POST" (typeURL w.client index docType) data
        "Post failed, code: %v, message: %v" "Post" w Sprintf_post_failed)

/-- C3: for each of Get, Update, Delete and Create, when the first envelope
has code 16, the re-login yields the string token `t` and the second envelope
has code 0, the operation returns nil after exactly two document exchanges
and one Login, and the second document request carries the header
Authorization = "JWT " + t. -/
theorem relogin_uses_fresh_token {σ : Type} (env : Env σ) (w : World σ)
    (index docType id : String) (data : Body) :
    RefreshesToken env "GET" (docURL w.client index docType id) none
        (Get env index docType id) w
      ∧ RefreshesToken env "PUT" (docURL w.client index docType id) data
        (Update env index docType id data) w
      ∧ RefreshesToken env "DELETE" (docURL w.client index docType id) none
        (Delete env index docType id) w
      ∧ RefreshesToken env "POST" (typeURL w.client index docType) data
        (Create env index docType data) w := by
  refine ⟨?_, ?_, ?_, ?_⟩
  · exact RefreshesToken_congr _ _ _ _ _ _ _ (Get_eq_operation ..)
      (operation_refreshes env "GET" (docURL w.client index docType id) none
        "Put failed, code: %v, message: %v" w)
  · exact RefreshesToken_congr _ _ _ _ _ _ _ (Update_eq_operation ..)
      (operation_refreshes env "PUT" (docURL w.client index docType id) data
        "Put failed, code: %v, message: %v" w)
  · exact RefreshesToken_congr _ _ _ _ _ _ _ (Delete_eq_operation ..)
      (operation_refreshes env "DELETE" (docURL w.client index docType id) none
        "Delete failed, code: %v, message: %v" w)
  · exact RefreshesToken_congr _ _ _ _ _ _ _ (Create_eq_operation ..)
      (operation_refreshes env "POST" (typeURL w.client index docType) data
        "Post failed, code: %v, message: %v" w)

/-- C5: for each of Get, Update, Delete and Create, when every document
exchange returns code 16 and every re-login succeeds, the operation performs
exactly three document exchanges, three Logins and two delays of one second,
and returns `ErrNoAuth`. -/
theorem expired_throughout_exhausts {σ : Type} (env : Env σ) (w : World σ)
    (index docType id : String) (data : Body) :
    ExhaustsAttempts env "GET" (docURL w.client index docType id) none
        (Get env index docType id) w
      ∧ ExhaustsAttempts env "PUT" (docURL w.client index docType id) data
        (Update env index docType id data) w
      ∧ ExhaustsAttempts env "DELETE" (docURL w.client index docType id) none
        (Delete env index docType id) w
      ∧ ExhaustsAttempts env "POST" (typeURL w.client index docType) data
        (Create env index docType data) w := by
  refine ⟨?_, ?_, ?_, ?_⟩
  · exact ExhaustsAttempts_congr _ _ _ _ _ _ _ (Get_eq_operation ..)
      (operation_exhausts env "GET" (docURL w.client index docType id) none
        "Put failed, code: %v, message: %v" w)
  · exact ExhaustsAttempts_congr _ _ _ _ _ _ _ (Update_eq_operation ..)
      (operation_exhausts env "PUT" (docURL w.client index docType id) data
        "Put failed, code: %v, message: %v" w)
  · exact ExhaustsAttempts_congr _ _ _ _ _ _ _ (Delete_eq_operation ..)
      (operation_exhausts env "DELETE" (docURL w.client index docType id) none
        "Delete failed, code: %v, message: %v" w)
  · exact ExhaustsAttempts_congr _ _ _ _ _ _ _ (Create_eq_operation ..)
      (operation_exhausts env "POST" (typeURL w.client index docType) data
        "Post failed, code: %v, message: %v" w)

/-! ## Concrete runs -/

/-- C1 at a concrete run: the connection is refused at the first exchange of a Get. -/
theorem exchange_error_is_fatal_witness :
    Performed (Get (scripted []) "idx" "doc" "5" (World.start demoClient 0))
      (World.start demoClient 0) (some (.lib ⟨"connection refused"⟩))
      [(none, some (.lib ⟨"connection refused"⟩))] 0 [] :=
  ((exchange_error_is_fatal (scripted []) (World.start demoClient 0) "idx" "doc" "5"
    demoData).1.1 none (.lib ⟨"connection refused"⟩) _ rfl).2

/-- C2 at a concrete run (scenario C): Create meets code 500, "disk full". -/
theorem business_error_after_one_exchange_witness :
    ∃ e : GoError,
      Performed
          (Create (scripted [reply "\x7b\"Code\":500,\"Message\":\"disk full\"\x7d"])
            "idx" "doc" demoData (World.start demoClient 0))
          (World.start demoClient 0) (some e)
          [(some { Code := 500, Message := "disk full" }, none)] 0 []
        ∧ e.text = "Post" ++ " failed, code: " ++ toString (500 : Int) ++ ", message: " ++ "disk full"
        ∧ containsText e.text (toString (500 : Int))
        ∧ containsText e.text "disk full" :=
  (business_error_after_one_exchange
    (scripted [reply "\x7b\"Code\":500,\"Message\":\"disk full\"\x7d"])
    (World.start demoClient 0) "idx" "doc" "5" demoData).2.2.2
    { Code := 500, Message := "disk full" } _ rfl (by decide) (by decide)

/-- C3 at a concrete run (scenario B): Update meets code 16, logs in again for
the token "tok2", and then meets code 0. -/
theorem relogin_uses_fresh_token_witness :
    Performed
        (Update (scripted [reply "\x7b\"Code\":16\x7d",
            reply "\x7b\"Code\":0,\"Data\":\"tok2\"\x7d", reply "\x7b\"Code\":0\x7d"])
          "idx" "doc" "5" demoData (World.start demoClient 0))
        (World.start demoClient 0) none
        [(some { Code := 16 }, none), (some { Code := 0 }, none)] 1 [sleep]
      ∧ ∃ b1 b2 b3 : String,
          sends (Update (scripted [reply "\x7b\"Code\":16\x7d",
              reply "\x7b\"Code\":0,\"Data\":\"tok2\"\x7d", reply "\x7b\"Code\":0\x7d"])
            "idx" "doc" "5" demoData (World.start demoClient 0)).2.trace
            = sends (World.start demoClient 0 : World Nat).trace ++
              [⟨"PUT", docURL demoClient "idx" "doc" "5", headers "tok1", b1⟩,
               ⟨"post", loginURL demoClient, headers "tok1", b2⟩,
               ⟨"PUT", docURL demoClient "idx" "doc" "5",
                 [("Content-Type", "application/json"), ("Authorization", "JWT " ++ "tok2")], b3⟩] :=
  (relogin_uses_fresh_token
    (scripted [reply "\x7b\"Code\":16\x7d",
      reply "\x7b\"Code\":0,\"Data\":\"tok2\"\x7d", reply "\x7b\"Code\":0\x7d"])
    (World.start demoClient 0) "idx" "doc" "5" demoData).2.1
    { Code := 16 } { Code := 0, Data := .string "tok2" } { Code := 0 } "tok2" _ _ _
    rfl rfl rfl rfl rfl rfl

/-- C5 at a concrete run (scenario D): Get meets code 16 three times and every
re-login succeeds. -/
theorem expired_throughout_exhausts_witness :
    Performed
        (Get (scripted [reply "\x7b\"Code\":16\x7d",
            reply "\x7b\"Code\":0,\"Data\":\"tok2\"\x7d", reply "\x7b\"Code\":16\x7d",
            reply "\x7b\"Code\":0,\"Data\":\"tok2\"\x7d", reply "\x7b\"Code\":16\x7d",
            reply "\x7b\"Code\":0,\"Data\":\"tok2\"\x7d"])
          "idx" "doc" "5" (World.start demoClient 0))
        (World.start demoClient 0) (some ErrNoAuth)
        [(some { Code := 16 }, none), (some { Code := 16 }, none), (some { Code := 16 }, none)]
        3 [1000000000, 1000000000] :=
  (expired_throughout_exhausts
    (scripted [reply "\x7b\"Code\":16\x7d",
      reply "\x7b\"Code\":0,\"Data\":\"tok2\"\x7d", reply "\x7b\"Code\":16\x7d",
      reply "\x7b\"Code\":0,\"Data\":\"tok2\"\x7d", reply "\x7b\"Code\":16\x7d",
      reply "\x7b\"Code\":0,\"Data\":\"tok2\"\x7d"])
    (World.start demoClient 0) "idx" "doc" "5" demoData).1
    { Code := 16 } { Code := 16 } { Code := 16 } _ _ _ _ _ _ _ _ _
    rfl rfl rfl rfl rfl rfl rfl rfl rfl

/-! ## What the retry loop of a document operation leaves behind -/

theorem retryMeasure_wrap_lt (n : Int) (h : 0 < wrapInt (n - 1)) :
    retryMeasure (wrapInt (n - 1)) < retryMeasure n := by
  unfold wrapInt at h ⊢
  unfold retryMeasure
  split_ifs <;> omega

theorem Login_error_kind {σ : Type} (env : Env σ) (w w1 : World σ) (r : Option Response)
    (e : GoError) (h : Login env w = (.ret (r, some e), w1)) :
    (∃ le, e = .lib le) ∨ e = .errorf "数据格式错误" [] := by
  obtain ⟨res, c1, net1, sent, h1, _, _, _, herr⟩ := Login_cases env w
  rw [h] at h1
  injection h1 with hres hw
  exact herr r e hres.symm

theorem Do_error_kind {σ : Type} (env : Env σ) (m u : String) (b : Body) (w w1 : World σ)
    (r : Option Response) (e : GoError) (h : Do env m u b w = (.ret (r, some e), w1)) :
    ∃ le, e = .lib le := by
  obtain ⟨res, net1, sent, h1, _, _, herr⟩ := Do_cases env m u b w
  rw [h] at h1
  injection h1 with hres hw
  exact herr r e hres.symm

theorem not_settled_of_last (tr : List Event) (docs : List (Option Response × Option GoError))
    (x : Option Response × Option GoError) (h : documents tr = docs ++ [x])
    (hx : ∀ r : Response, x = (some r, none) → r.Code ≠ 0) : ¬ settledWithZero tr := by
  rintro ⟨r, hr, h0⟩
  rw [h, List.getLast?_concat] at hr
  injection hr with hr
  exact hx r hr h0

theorem retry_attempt_inv {σ : Type} (env : Env σ) (m u : String) (b : Body) (k : Nat) :
    ∀ (n : Int) (t : World σ × Option Response), retryMeasure n = k →
      ¬ settledWithZero t.1.trace →
      ((retry timeSleep n sleep (attempt env m u b) t).1 = .ret none →
          ∃ r : Response, (retry timeSleep n sleep (attempt env m u b) t).2.2 = some r
            ∧ r.Code ≠ authErr
            ∧ (documents (retry timeSleep n sleep (attempt env m u b) t).2.1.trace).getLast?
                = some (some r, none))
        ∧ ((retry timeSleep n sleep (attempt env m u b) t).1 ≠ .ret none →
            ¬ settledWithZero (retry timeSleep n sleep (attempt env m u b) t).2.1.trace)
        ∧ (∀ e, (retry timeSleep n sleep (attempt env m u b) t).1 = .ret (some e) →
            (∃ le, e = .lib le) ∨ e = .errorf "数据格式错误" [] ∨ e = ErrNoAuth) := by
  induction k using Nat.strong_induction_on with
  | _ k ih =>
    intro n t hk hpre
    rcases hdo : Do env m u b t.1 with ⟨res, w1⟩
    obtain ⟨_, hdoc, _, _⟩ := Do_log env m u b t.1 w1 res hdo
    match res, hdo with
    | .panic msg, hdo =>
      rw [retry_panic _ _ _ _ _ _ _ (attempt_of_panic env m u b t msg w1 hdo)]
      refine ⟨by simp, fun _ => ?_, by simp⟩
      rintro ⟨r, hr, h0⟩
      exact hpre ⟨r, by rw [← hdoc]; exact hr, h0⟩
    | .ret (r, some e), hdo =>
      rw [retry_exchange_error env m u b n t r e w1 hdo]
      obtain ⟨hd, _, _⟩ := log_after_document env m u b t.1 w1 _ _ hdo
      refine ⟨by simp, fun _ => ?_, ?_⟩
      · exact not_settled_of_last _ _ _ hd (by simp)
      · intro e1 h1
        simp only [Run.ret.injEq, Option.some.injEq] at h1
        subst h1
        exact Or.inl (Do_error_kind env m u b t.1 w1 r _ hdo)
    | .ret (none, none), hdo =>
      rw [retry_panic _ _ _ _ _ _ _ (attempt_of_null env m u b t w1 hdo)]
      obtain ⟨hd, _, _⟩ := log_after_document env m u b t.1 w1 _ _ hdo
      exact ⟨by simp, fun _ => not_settled_of_last _ _ _ hd (by simp), by simp⟩
    | .ret (some r, none), hdo =>
      obtain ⟨hd, _, _⟩ := log_after_document env m u b t.1 w1 _ _ hdo
      by_cases hc : r.Code = authErr
      · have hr0 : ∀ r1 : Response, (some r, (none : Option GoError)) = (some r1, none) →
            r1.Code ≠ 0 := by
          intro r1 h1
          simp only [Prod.mk.injEq, Option.some.injEq, and_true] at h1
          subst h1
          rw [hc]
          decide
        rcases hlog : Login env (w1.log (.document (some r) none)) with ⟨lres, w2⟩
        obtain ⟨⟨hd2, _, _⟩, hd3, _, _⟩ :=
          log_after_relogin env m u b t.1 w1 w2 r lres sleep hdo hlog
        match lres, hlog with
        | .panic msg, hlog =>
          rw [retry_panic _ _ _ _ _ _ _ (attempt_of_login_panic env m u b t r w1 w2 msg hdo hc hlog)]
          exact ⟨by simp, fun _ => not_settled_of_last _ _ _ hd2 hr0, by simp⟩
        | .ret (lr, some e), hlog =>
          rw [retry_stop _ _ _ _ _ _ _ _
            (attempt_of_login_error env m u b t r w1 w2 lr e hdo hc hlog) rfl]
          refine ⟨by simp, fun _ => not_settled_of_last _ _ _ hd2 hr0, ?_⟩
          intro e1 h1
          simp only [Run.ret.injEq, Option.some.injEq] at h1
          subst h1
          rcases Login_error_kind env _ w2 lr _ hlog with h | h
          · exact Or.inl h
          · exact Or.inr (Or.inl h)
        | .ret (lr, none), hlog =>
          by_cases hn : 0 < wrapInt (n - 1)
          · rw [retry_relogin env m u b n t r w1 w2 lr hdo hc hlog hn]
            exact ih _ (by rw [← hk]; exact retryMeasure_wrap_lt n hn) _ _ rfl
              (not_settled_of_last _ _ _ hd3 hr0)
          · rw [retry_exhausted env m u b n t r w1 w2 lr hdo hc hlog hn]
            exact ⟨by simp, fun _ => not_settled_of_last _ _ _ hd2 hr0,
              fun e1 h1 => by
                simp only [Run.ret.injEq, Option.some.injEq] at h1
                exact Or.inr (Or.inr h1.symm)⟩
      · rw [retry_settled env m u b n t r w1 hdo hc]
        refine ⟨fun _ => ⟨r, rfl, hc, ?_⟩, by simp, by simp⟩
        simp only [hd, List.getLast?_concat]

theorem not_settled_nil : ¬ settledWithZero [] := by
  rintro ⟨r, hr, _⟩
  simp [documents] at hr

theorem operation_sixteen {σ : Type} (env : Env σ) (m u : String) (b : Body) (format : String)
    (w : World σ) (hw : ¬ settledWithZero w.trace) :
    SixteenIsNotTerminal format (operation env m u b format w) := by
  obtain ⟨hnil, herr, hkind⟩ :=
    retry_attempt_inv env m u b _ attempts (w, some {}) rfl hw
  unfold operation
  rcases hout : retry timeSleep attempts sleep (attempt env m u b) (w, some {}) with ⟨res, w1, r1⟩
  rw [hout] at hnil herr hkind
  match res, hnil, herr, hkind with
  | .panic msg, _, herr, _ =>
    exact ⟨⟨by simp, fun h => absurd h (herr (by simp))⟩, by simp⟩
  | .ret (some e), _, herr, hkind =>
    refine ⟨⟨by simp, fun h => absurd h (herr (by simp))⟩, ?_⟩
    intro msg h
    simp only [Run.ret.injEq, Option.some.injEq] at h
    rcases hkind e rfl with ⟨le, hle⟩ | hm | hn
    · rw [hle] at h; cases h
    · rw [hm] at h; cases h
    · rw [hn] at h; cases h
  | .ret none, hnil, _, _ =>
    obtain ⟨r, hr, hc, hlast⟩ := hnil rfl
    simp only at hr hlast
    subst hr
    simp only
    by_cases h0 : r.Code = 0
    · rw [if_neg (by simp [h0])]
      exact ⟨⟨fun _ => ⟨r, hlast, h0⟩, fun _ => rfl⟩, by simp⟩
    · rw [if_pos h0]
      refine ⟨⟨by simp, ?_⟩, ?_⟩
      · rintro ⟨r2, hr2, h2⟩
        simp only at hr2
        rw [hlast] at hr2
        simp only [Option.some.injEq, Prod.mk.injEq, and_true] at hr2
        subst hr2
        exact absurd h2 h0
      · intro msg h
        simp only [Run.ret.injEq, Option.some.injEq, GoError.errorf.injEq, List.cons.injEq,
          FmtArg.int.injEq, true_and] at h
        exact hc h.1

/-- C4: for each of Get, Update, Delete and Create, for every environment
(so every behaviour of the server) and every client: the operation returns
nil if and only if the last document exchange it performed decoded to an
envelope with code 0, and it never returns the business error formatted with
the code 16. -/
theorem sixteen_is_never_terminal {σ : Type} (env : Env σ) (c : Client) (net : σ)
    (index docType id : String) (data : Body) :
    SixteenIsNotTerminal "Put failed, code: %v, message: %v"
        (Get env index docType id (World.start c net))
      ∧ SixteenIsNotTerminal "Put failed, code: %v, message: %v"
        (Update env index docType id data (World.start c net))
      ∧ SixteenIsNotTerminal "Delete failed, code: %v, message: %v"
        (Delete env index docType id (World.start c net))
      ∧ SixteenIsNotTerminal "Post failed, code: %v, message: %v"
        (Create env index docType data (World.start c net)) := by
  refine ⟨?_, ?_, ?_, ?_⟩
  · rw [Get_eq_operation]
    exact operation_sixteen _ _ _ _ _ _ not_settled_nil
  · rw [Update_eq_operation]
    exact operation_sixteen _ _ _ _ _ _ not_settled_nil
  · rw [Delete_eq_operation]
    exact operation_sixteen _ _ _ _ _ _ not_settled_nil
  · rw [Create_eq_operation]
    exact operation_sixteen _ _ _ _ _ _ not_settled_nil

/-! ## The recursive retry and the loop of the specification -/

/-- C9, amended: for every 64-bit integer `n` other than the least one, every
closure `g` that returns and every start state, the recursive `retry` returns
what the bounded loop of the specification returns and leaves the same state;
`g` is invoked at least once and at most `max n 1` times, every invocation
but the last returned a retryable error, the last decides the result (nil
after nil, the wrapped error after a `stop`, the last error itself once
`max n 1` invocations are made), and the delays slept are one fewer than the
invocations. -/
theorem retry_refines_retryLoop {τ : Type} (wait : Int → τ → τ) (n d : Int)
    (g : τ → Option GoError × τ) (t : τ)
    (hlo : -9223372036854775808 < n) (hhi : n < 9223372036854775808) :
    retry wait n d (returning g) t
        = (.ret (retryLoop wait n d g t).1, (retryLoop wait n d g t).2)
      ∧ (retry (countedSleep wait) n d (returning (recorded g)) (t, [], 0)).1
        = (retry wait n d (returning g) t).1
      ∧ (retry (countedSleep wait) n d (returning (recorded g)) (t, [], 0)).2.1
        = (retry wait n d (returning g) t).2
      ∧ 1 ≤ (retry (countedSleep wait) n d (returning (recorded g)) (t, [], 0)).2.2.1.length
      ∧ ((retry (countedSleep wait) n d (returning (recorded g)) (t, [], 0)).2.2.1.length : Int)
          ≤ max n 1
      ∧ (retry (countedSleep wait) n d (returning (recorded g)) (t, [], 0)).2.2.2 + 1
          = (retry (countedSleep wait) n d (returning (recorded g)) (t, [], 0)).2.2.1.length
      ∧ (∀ e ∈ (retry (countedSleep wait) n d (returning (recorded g)) (t, [], 0)).2.2.1.dropLast,
          retryable e)
      ∧ lastDecides n (retry (countedSleep wait) n d (returning (recorded g)) (t, [], 0)).2.2.1
          (retry wait n d (returning g) t).1 := by
  obtain ⟨h1, h2, h3, rs, hne, hlog, hz, hlen, hmid, hlast⟩ :=
    retry_recorded wait d g (n - 1).toNat n hlo hhi rfl t [] 0
  simp only [List.nil_append] at hlog
  rw [hlog]
  refine ⟨h3, ?_, ?_, ?_, hlen, ?_, hmid, hlast⟩
  · rw [h1, h3]
  · rw [h2, h3]
  · exact List.length_pos.mpr hne
  · omega

/-- C9 amended, at a concrete run: three attempts allowed, a closure that
fails once; it is invoked twice and one delay is slept. -/
theorem retry_refines_retryLoop_witness :
    retry tick 3 sleep (returning failsOnce) (0, 0)
        = (.ret (retryLoop tick 3 sleep failsOnce (0, 0)).1,
            (retryLoop tick 3 sleep failsOnce (0, 0)).2)
      ∧ ((retry (countedSleep tick) 3 sleep (returning (recorded failsOnce))
            ((0, 0), [], 0)).2.2.1.length : Int) ≤ max 3 1
      ∧ (retry (countedSleep tick) 3 sleep (returning (recorded failsOnce)) ((0, 0), [], 0)).2.2.2
          + 1
          = (retry (countedSleep tick) 3 sleep (returning (recorded failsOnce))
              ((0, 0), [], 0)).2.2.1.length :=
  ⟨(retry_refines_retryLoop tick 3 sleep failsOnce (0, 0) (by decide) (by decide)).1,
    (retry_refines_retryLoop tick 3 sleep failsOnce (0, 0) (by decide) (by decide)).2.2.2.2.1,
    (retry_refines_retryLoop tick 3 sleep failsOnce (0, 0) (by decide) (by decide)).2.2.2.2.2.1⟩

end Apatodon
